import Mathlib

/-!
Verification development for the BrightForge model manager
(`src/python/model_manager.py`).

The Python `ModelManager` class is shallowly embedded as pure functions over
an explicit `Manager` state.  External collaborators (the CUDA probe, the
diffusers backends, the filesystem and the wall clock) are modelled as
explicit environment records: every point where the Python code calls out to
a collaborator that may fail becomes a boolean (or rational) field of the
environment, and the embedded function branches on it exactly where the
source would observe the success or the raised exception.

Besides the final state, every operation also returns a trace of `Event`s:
a snapshot of the slot table after each mutation of a slot (one `Event.snap`
per Python assignment to a slot's `state`, `pipeline` or `load_count`),
every generation-lock acquisition and release, and every invocation of an
opaque backend compute call.  Instant-level properties (single residency,
handle/state coupling, gate blocking behaviour) are stated over these
traces.
-/

namespace BrightForge

set_option maxHeartbeats 1000000

/-- Lifecycle states of a model slot, mirroring the `ModelState` enum. -/
inductive ModelState where
  | unloaded
  | loading
  | ready
  | generating
  | unloading
  | error
deriving DecidableEq, Repr

/-- The two workload kinds, mirroring the `ModelType` enum. -/
inductive ModelType where
  | instantmesh
  | sdxl
deriving DecidableEq, Repr

/-- One entry of `self._models`: lifecycle state, the opaque pipeline handle
(`Option Unit`: `some ()` models a non-null Python object, `none` models
`None`), and the load counter. -/
structure Slot where
  state : ModelState
  pipeline : Option Unit
  load_count : Nat
deriving DecidableEq, Repr

/-- Result of `get_vram_info`.  Only the fields the manager's control flow
reads (`available` and `free_gb`) are modelled; the remaining fields of the
Python dict are observational and never branch the code.  The probe is an
external collaborator, so its result is supplied by the environment. -/
structure VramInfo where
  available : Bool
  free_gb : ℚ
deriving DecidableEq, Repr

/-- The mutable state of a `ModelManager` instance.  The configuration
values read from `CONFIG` at construction time (`vram_buffer_gb`, the two
per-model `required_vram_gb` entries and the restart threshold) are carried
as immutable fields. -/
structure Manager where
  instantmesh : Slot
  sdxl : Slot
  generation_lock : Bool
  generation_count : Nat
  total_generation_time : ℚ
  restart_threshold : Nat
  vram_buffer_gb : ℚ
  instantmesh_required_vram_gb : ℚ
  sdxl_required_vram_gb : ℚ
deriving DecidableEq, Repr

/-- Observable events emitted while an operation runs: a snapshot of the
whole slot table after each slot mutation, generation-lock acquisitions
(non-blocking `acquire(blocking=False)` versus plain blocking `acquire()`),
lock releases, and invocations of an opaque backend compute call. -/
inductive Event where
  | snap (instantmesh sdxl : Slot)
  | tryAcquire (ok : Bool)
  | blockingAcquire
  | release
  | computeCall (t : ModelType)
deriving DecidableEq, Repr

/-- Read a slot of the table. -/
def Manager.slot (m : Manager) : ModelType → Slot
  | .instantmesh => m.instantmesh
  | .sdxl => m.sdxl

/-- Replace a slot of the table. -/
def Manager.setSlot (m : Manager) : ModelType → Slot → Manager
  | .instantmesh, s => { m with instantmesh := s }
  | .sdxl, s => { m with sdxl := s }

/-- Snapshot of the current slot table, recorded after every mutation. -/
def snapOf (m : Manager) : Event :=
  .snap m.instantmesh m.sdxl

/-- Placeholder for the text of a collaborator exception (`str(e)` in the
source); the actual text is environmental and never branches the code. -/
def excText : String := "exception"

/-- Embeds `_check_vram_budget` (model_manager.py lines 117-133): if the
probe reports unavailable the check optimistically passes; otherwise it
fails exactly when `free_gb < required_gb + vram_buffer_gb`. -/
def check_vram_budget (m : Manager) (vram : VramInfo) (required_gb : ℚ) : Bool :=
  if vram.available = false then true
  else if vram.free_gb < required_gb + m.vram_buffer_gb then false
  else true

/-- Embeds `_unload_model` (lines 160-182).  `clearOk` tells whether the
`_clear_vram` call inside the `try` block succeeds; on failure the `except`
branch records `error` while still clearing the handle.  The snapshots
record the three mutation instants of the source: `state = UNLOADING`,
`pipeline = None`, and the final `state = UNLOADED` (or `ERROR`).  When the
handle is already null the middle snapshot duplicates the first, matching
the skipped `del`. -/
def unload_model (m : Manager) (t : ModelType) (clearOk : Bool) :
    Manager × List Event :=
  let info := m.slot t
  if info.state = .unloaded then (m, [])
  else
    let m1 := m.setSlot t { info with state := .unloading }
    let m2 := m1.setSlot t { m1.slot t with pipeline := none }
    if clearOk then
      let m3 := m2.setSlot t { m2.slot t with state := .unloaded }
      (m3, [snapOf m1, snapOf m2, snapOf m3])
    else
      let m3 := m2.setSlot t { m2.slot t with state := .error }
      (m3, [snapOf m1, snapOf m2, snapOf m3])

/-- Embeds `_unload_all` (lines 155-158): unloads InstantMesh then SDXL, in
the iteration order of the `ModelType` enum. -/
def unload_all (m : Manager) (clearIm clearSd : Bool) : Manager × List Event :=
  let u1 := unload_model m .instantmesh clearIm
  let u2 := unload_model u1.1 .sdxl clearSd
  (u2.1, u1.2 ++ u2.2)

/-- Environment of one `load_instantmesh` / `load_sdxl` call.  Each field
stands for the outcome of one collaborator interaction of the source:
the probe result used by the admission check, the two `_clear_vram` calls
inside the per-slot `_unload_model` eviction, the uncaught `_clear_vram`
call right after the eviction (line 197 / 261 — a failure there propagates
as an exception), the backend acquisition (`from_pretrained` + `.to('cuda')`
and, for SDXL, the scheduler and attention-slicing setup, all of which run
before the handle is stored), and the `_clear_vram` call inside the
load-failure `except` branch (a failure there also propagates). -/
structure LoadEnv where
  vram : VramInfo
  evictClearIm : Bool
  evictClearSd : Bool
  postEvictClearOk : Bool
  acquireOk : Bool
  failClearOk : Bool
deriving DecidableEq, Repr

/-- Common body of `load_instantmesh` (lines 184-246) and `load_sdxl`
(lines 248-308), which differ only in the target slot and the configured
VRAM requirement.  The result is `.error ()` when the source would let an
exception escape the method, otherwise `.ok b` for the returned boolean. -/
def load_core (m : Manager) (t : ModelType) (required_gb : ℚ) (env : LoadEnv) :
    Except Unit Bool × Manager × List Event :=
  if (m.slot t).state = .ready then (.ok true, m, [])
  else
    let u := unload_all m env.evictClearIm env.evictClearSd
    if env.postEvictClearOk = false then (.error (), u.1, u.2)
    else if check_vram_budget u.1 env.vram required_gb = false then
      (.ok false, u.1, u.2)
    else
      let m2 := u.1.setSlot t { u.1.slot t with state := .loading }
      if env.acquireOk then
        let m3 := m2.setSlot t { m2.slot t with pipeline := some () }
        let m4 := m3.setSlot t { m3.slot t with state := .ready }
        let m5 := m4.setSlot t
          { m4.slot t with load_count := (m4.slot t).load_count + 1 }
        (.ok true, m5, u.2 ++ [snapOf m2, snapOf m3, snapOf m4, snapOf m5])
      else
        let m3 := m2.setSlot t { m2.slot t with state := .error }
        let m4 := m3.setSlot t { m3.slot t with pipeline := none }
        if env.failClearOk then
          (.ok false, m4, u.2 ++ [snapOf m2, snapOf m3, snapOf m4])
        else
          (.error (), m4, u.2 ++ [snapOf m2, snapOf m3, snapOf m4])

/-- Embeds `load_instantmesh`; the required VRAM is the configured
`models.instantmesh.required_vram_gb` carried by the manager. -/
def load_instantmesh (m : Manager) (env : LoadEnv) :
    Except Unit Bool × Manager × List Event :=
  load_core m .instantmesh m.instantmesh_required_vram_gb env

/-- Embeds `load_sdxl`; the required VRAM is the configured
`models.sdxl.required_vram_gb` carried by the manager. -/
def load_sdxl (m : Manager) (env : LoadEnv) :
    Except Unit Bool × Manager × List Event :=
  load_core m .sdxl m.sdxl_required_vram_gb env

/-- Result dict of `generate_mesh` / `generate_image`, restricted to the
fields the specification's claims observe. -/
structure GenResult where
  success : Bool
  error : Option String := none
  output_path : Option String := none
  generation_time : Option ℚ := none
deriving DecidableEq, Repr

/-- Round-half-to-even on rationals: the idealised semantics of Python's
builtin `round` applied to a non-negative number of the embedding. -/
def roundHalfEven (q : ℚ) : ℤ :=
  if q - ⌊q⌋ < 1 / 2 then ⌊q⌋
  else if 1 / 2 < q - ⌊q⌋ then ⌊q⌋ + 1
  else if ⌊q⌋ % 2 = 0 then ⌊q⌋ else ⌊q⌋ + 1

/-- Python's `round(q, 2)`: round to two decimal places, ties to even. -/
def pyRound2 (q : ℚ) : ℚ :=
  (roundHalfEven (q * 100) : ℚ) / 100

/-- The shared `except Exception` handler of `generate_mesh` (lines
385-389) and `generate_image` (lines 457-461): the slot returns to `ready`
when its pipeline handle is non-null and to `error` otherwise, and a
failure dict carrying the exception text is returned. -/
def gen_exc (m : Manager) (t : ModelType) : GenResult × Manager × List Event :=
  let info := m.slot t
  let st : ModelState := if info.pipeline = none then .error else .ready
  let m1 := m.setSlot t { info with state := st }
  ({ success := false, error := some excText }, m1, [snapOf m1])

/-- Environment of one `generate_mesh` call: the environment of the inner
`load_instantmesh` (used only when the slot is not already ready), whether
the image open/convert/resize steps (lines 335-343) succeed, whether the
backend compute call (line 347) returns, whether the `mkdir` and mesh
export calls (lines 350-363) succeed, whether the produced result object
has one of the three recognised mesh shapes (lines 353-364), whether the
post-success `_clear_vram`, probe and `stat` calls (lines 372-382) succeed,
and the elapsed wall time measured around the generation. -/
structure MeshEnv where
  load : LoadEnv
  imageOk : Bool
  computeOk : Bool
  exportOk : Bool
  shapeRecognized : Bool
  postOk : Bool
  duration : ℚ
deriving DecidableEq, Repr

/-- The part of `generate_mesh` that runs once the InstantMesh slot is
ready (lines 330-389): transition to `generating`, open the input image,
invoke the backend, export the mesh, bump the stats and return to `ready`.
A null pipeline handle makes the `pipeline(image, ...)` call itself raise
before any backend is invoked.  When the result object's shape is not
recognised the source returns a failure dict directly from inside the
`try`, without restoring the slot state. -/
def generate_mesh_after_load (m1 : Manager) (env : MeshEnv)
    (output_path : String) : GenResult × Manager × List Event :=
  let m2 := m1.setSlot .instantmesh { m1.slot .instantmesh with state := .generating }
  let pre := [snapOf m2]
  if env.imageOk = false then
    let e := gen_exc m2 .instantmesh
    (e.1, e.2.1, pre ++ e.2.2)
  else
    match (m2.slot .instantmesh).pipeline with
    | none =>
      let e := gen_exc m2 .instantmesh
      (e.1, e.2.1, pre ++ e.2.2)
    | some _ =>
      let ev := pre ++ [Event.computeCall .instantmesh]
      if env.computeOk = false then
        let e := gen_exc m2 .instantmesh
        (e.1, e.2.1, ev ++ e.2.2)
      else if env.exportOk = false then
        let e := gen_exc m2 .instantmesh
        (e.1, e.2.1, ev ++ e.2.2)
      else if env.shapeRecognized = false then
        ({ success := false, error := some "Model output format not recognized" },
          m2, ev)
      else
        let m3 := { m2 with
          generation_count := m2.generation_count + 1,
          total_generation_time := m2.total_generation_time + env.duration }
        let m4 := m3.setSlot .instantmesh { m3.slot .instantmesh with state := .ready }
        let ev2 := ev ++ [snapOf m4]
        if env.postOk = false then
          let e := gen_exc m4 .instantmesh
          (e.1, e.2.1, ev2 ++ e.2.2)
        else
          ({ success := true, output_path := some output_path,
             generation_time := some (pyRound2 env.duration) }, m4, ev2)

/-- The `try` body of `generate_mesh` (lines 323-389): ensure the slot is
ready (loading on demand; an exception escaping the load lands in the
shared handler) and then generate. -/
def generate_mesh_body (m0 : Manager) (env : MeshEnv) (output_path : String) :
    GenResult × Manager × List Event :=
  if (m0.slot .instantmesh).state = .ready then
    generate_mesh_after_load m0 env output_path
  else
    match load_instantmesh m0 env.load with
    | (.error _, m1, e1) =>
      let e := gen_exc m1 .instantmesh
      (e.1, e.2.1, e1 ++ e.2.2)
    | (.ok false, m1, e1) =>
      ({ success := false, error := some "Failed to load InstantMesh" }, m1, e1)
    | (.ok true, m1, e1) =>
      let g := generate_mesh_after_load m1 env output_path
      (g.1, g.2.1, e1 ++ g.2.2)

/-- Embeds `generate_mesh` (lines 310-392): non-blocking acquire of the
generation lock (an immediate busy failure when it is already held), the
`try` body, and the `finally` that releases the lock. -/
def generate_mesh (m : Manager) (env : MeshEnv) (output_path : String) :
    GenResult × Manager × List Event :=
  if m.generation_lock then
    ({ success := false, error := some "Another generation is in progress" },
      m, [Event.tryAcquire false])
  else
    let b := generate_mesh_body { m with generation_lock := true } env output_path
    (b.1, { b.2.1 with generation_lock := false },
      Event.tryAcquire true :: b.2.2 ++ [Event.release])

/-- Environment of one `generate_image` call: the environment of the inner
`load_sdxl`, whether the backend compute call together with the image
extraction, `mkdir` and save (lines 424-435) succeeds, whether the
post-success `_clear_vram`, probe and `stat` calls (lines 442-454) succeed,
and the elapsed wall time. -/
structure ImageEnv where
  load : LoadEnv
  computeOk : Bool
  postOk : Bool
  duration : ℚ
deriving DecidableEq, Repr

/-- The part of `generate_image` that runs once the SDXL slot is ready
(lines 417-461). -/
def generate_image_after_load (m1 : Manager) (env : ImageEnv)
    (output_path : String) : GenResult × Manager × List Event :=
  let m2 := m1.setSlot .sdxl { m1.slot .sdxl with state := .generating }
  let pre := [snapOf m2]
  match (m2.slot .sdxl).pipeline with
  | none =>
    let e := gen_exc m2 .sdxl
    (e.1, e.2.1, pre ++ e.2.2)
  | some _ =>
    let ev := pre ++ [Event.computeCall .sdxl]
    if env.computeOk = false then
      let e := gen_exc m2 .sdxl
      (e.1, e.2.1, ev ++ e.2.2)
    else
      let m3 := { m2 with
        generation_count := m2.generation_count + 1,
        total_generation_time := m2.total_generation_time + env.duration }
      let m4 := m3.setSlot .sdxl { m3.slot .sdxl with state := .ready }
      let ev2 := ev ++ [snapOf m4]
      if env.postOk = false then
        let e := gen_exc m4 .sdxl
        (e.1, e.2.1, ev2 ++ e.2.2)
      else
        ({ success := true, output_path := some output_path,
           generation_time := some (pyRound2 env.duration) }, m4, ev2)

/-- The `try` body of `generate_image` (lines 410-461). -/
def generate_image_body (m0 : Manager) (env : ImageEnv) (output_path : String) :
    GenResult × Manager × List Event :=
  if (m0.slot .sdxl).state = .ready then
    generate_image_after_load m0 env output_path
  else
    match load_sdxl m0 env.load with
    | (.error _, m1, e1) =>
      let e := gen_exc m1 .sdxl
      (e.1, e.2.1, e1 ++ e.2.2)
    | (.ok false, m1, e1) =>
      ({ success := false, error := some "Failed to load SDXL" }, m1, e1)
    | (.ok true, m1, e1) =>
      let g := generate_image_after_load m1 env output_path
      (g.1, g.2.1, e1 ++ g.2.2)

/-- Embeds `generate_image` (lines 394-464). -/
def generate_image (m : Manager) (env : ImageEnv) (output_path : String) :
    GenResult × Manager × List Event :=
  if m.generation_lock then
    ({ success := false, error := some "Another generation is in progress" },
      m, [Event.tryAcquire false])
  else
    let b := generate_image_body { m with generation_lock := true } env output_path
    (b.1, { b.2.1 with generation_lock := false },
      Event.tryAcquire true :: b.2.2 ++ [Event.release])

/-- Result dict of `generate_full_pipeline`, restricted to the observed
fields; `stage_image` / `stage_mesh` are the entries of the `stages`
sub-dict and are `none` exactly when the corresponding stage never ran. -/
structure PipelineResult where
  success : Bool
  error : Option String := none
  stage : Option String := none
  stage_image : Option GenResult := none
  stage_mesh : Option GenResult := none
  total_time : Option ℚ := none
  image_path : Option String := none
  mesh_path : Option String := none
deriving DecidableEq, Repr

/-- Environment of one `generate_full_pipeline` call: whether the
`output_dir.mkdir` call succeeds, the environments of the two stages, and
the total elapsed wall time measured by the outer call. -/
structure PipeEnv where
  mkdirOk : Bool
  stage1 : ImageEnv
  stage2 : MeshEnv
  total_duration : ℚ
deriving DecidableEq, Repr

/-- Rendering of an optional upstream error inside an f-string, as in
`f'Image generation failed: \x7bstage1.get("error")\x7d'`: Python prints
`None` for a missing value. -/
def optStr : Option String → String
  | none => "None"
  | some s => s

/-- Embeds `generate_full_pipeline` (lines 466-541).  The outer call
performs a non-blocking acquire for its own busy report, then *releases*
the lock before each stage (lines 496, 511) so the stage can acquire it
internally, and reacquires it after each stage with a plain **blocking**
`acquire()` (lines 498, 513).  Every acquisition and release is recorded
in the trace; the intermediate managers are written with the lock field's
net value at each point.  The `finally` release is modelled on every exit
path; in this single-caller semantics the lock is always held there,
matching the `except RuntimeError: pass` guard. -/
def generate_full_pipeline (m : Manager) (env : PipeEnv) (output_dir : String) :
    PipelineResult × Manager × List Event :=
  if m.generation_lock then
    ({ success := false, error := some "Another generation is in progress",
       stage := some "blocked" }, m, [Event.tryAcquire false])
  else
    if env.mkdirOk = false then
      ({ success := false, error := some excText, stage := some "unknown" },
        { m with generation_lock := false },
        [Event.tryAcquire true, Event.release])
    else
      let image_path := output_dir ++ "/generated_image.png"
      let mesh_path := output_dir ++ "/generated_mesh.glb"
      let s1 := generate_image { m with generation_lock := false }
        env.stage1 image_path
      let e1 := Event.tryAcquire true :: Event.release ::
        s1.2.2 ++ [Event.blockingAcquire]
      if s1.1.success = false then
        ({ success := false, stage_image := some s1.1,
           error := some ("Image generation failed: " ++ optStr s1.1.error),
           stage := some "image" },
          { s1.2.1 with generation_lock := false }, e1 ++ [Event.release])
      else
        let s2 := generate_mesh { s1.2.1 with generation_lock := false }
          env.stage2 mesh_path
        let e2 := e1 ++ [Event.release] ++ s2.2.2 ++ [Event.blockingAcquire]
        if s2.1.success = false then
          ({ success := false, stage_image := some s1.1, stage_mesh := some s2.1,
             error := some ("Mesh generation failed: " ++ optStr s2.1.error),
             stage := some "mesh" },
            { s2.2.1 with generation_lock := false }, e2 ++ [Event.release])
        else
          ({ success := true, stage_image := some s1.1, stage_mesh := some s2.1,
             total_time := some (pyRound2 env.total_duration),
             image_path := some image_path, mesh_path := some mesh_path },
            { s2.2.1 with generation_lock := false }, e2 ++ [Event.release])

/-- Per-slot part of the `get_status` result (lines 137-142). -/
structure SlotStatus where
  state : ModelState
  load_count : Nat
deriving DecidableEq, Repr

/-- Result of `get_status` (lines 135-153). -/
structure Status where
  instantmesh : SlotStatus
  sdxl : SlotStatus
  generation_count : Nat
  avg_generation_time : ℚ
  vram : VramInfo
  needs_restart : Bool
deriving DecidableEq, Repr

/-- Embeds `get_status`: a read-only aggregation of the slot states, the
generation stats and a fresh probe snapshot. -/
def get_status (m : Manager) (vram : VramInfo) : Status :=
  { instantmesh := ⟨m.instantmesh.state, m.instantmesh.load_count⟩
    sdxl := ⟨m.sdxl.state, m.sdxl.load_count⟩
    generation_count := m.generation_count
    avg_generation_time :=
      if m.generation_count > 0 then
        m.total_generation_time / (m.generation_count : ℚ)
      else 0
    vram := vram
    needs_restart := decide (m.restart_threshold ≤ m.generation_count) }

/-- Embeds `shutdown` (lines 543-548): evict every slot. -/
def shutdown (m : Manager) (clearIm clearSd : Bool) : Manager × List Event :=
  unload_all m clearIm clearSd

/-- The manager constructed by `__init__`: both slots unloaded with null
handles and zero counters, the lock free, and the configuration values
recorded. -/
def initManager (buffer imReq sdReq : ℚ) (threshold : Nat) : Manager :=
  { instantmesh := ⟨.unloaded, none, 0⟩
    sdxl := ⟨.unloaded, none, 0⟩
    generation_lock := false
    generation_count := 0
    total_generation_time := 0
    restart_threshold := threshold
    vram_buffer_gb := buffer
    instantmesh_required_vram_gb := imReq
    sdxl_required_vram_gb := sdReq }

/-- The manager built with the configuration defaults of the source
(`buffer_gb = 2.0`, `required_vram_gb = 6.0` and `8.0`, restart threshold
`20`). -/
def defaultManager : Manager := initManager 2 6 8 20

/-- One public operation of the manager together with its environment, for
quantifying over call sequences. -/
inductive Op where
  | loadInstantmesh (env : LoadEnv)
  | loadSdxl (env : LoadEnv)
  | unload (t : ModelType) (clearOk : Bool)
  | evictAll (clearIm clearSd : Bool)
  | genMesh (env : MeshEnv) (path : String)
  | genImage (env : ImageEnv) (path : String)
  | pipeline (env : PipeEnv) (dir : String)

/-- Execute one operation, keeping the state and the event trace. -/
def step (m : Manager) : Op → Manager × List Event
  | .loadInstantmesh env => let r := load_instantmesh m env; (r.2.1, r.2.2)
  | .loadSdxl env => let r := load_sdxl m env; (r.2.1, r.2.2)
  | .unload t c => unload_model m t c
  | .evictAll cIm cSd => unload_all m cIm cSd
  | .genMesh env p => let r := generate_mesh m env p; (r.2.1, r.2.2)
  | .genImage env p => let r := generate_image m env p; (r.2.1, r.2.2)
  | .pipeline env d => let r := generate_full_pipeline m env d; (r.2.1, r.2.2)

/-- Execute a sequence of operations from a state, concatenating traces. -/
def run (m : Manager) : List Op → Manager × List Event
  | [] => (m, [])
  | op :: ops =>
    let s := step m op
    let r := run s.1 ops
    (r.1, s.2 ++ r.2)

/-- A slot is resident when its state is `ready` or `generating` (the
spec's Ready/Busy). -/
def resident (s : Slot) : Bool :=
  match s.state with
  | .ready => true
  | .generating => true
  | _ => false

/-- Single residency of a slot-table snapshot: not both slots resident. -/
def singleResident (im sd : Slot) : Bool :=
  !(resident im && resident sd)

/-- Instant-level check of invariant I1 on one trace event. -/
def snapOk : Event → Bool
  | .snap im sd => singleResident im sd
  | _ => true

/-- Handle/state coupling of one slot as realised by the code between
operations: the handle is non-null exactly on the states of
{loading, ready, generating, unloading} that actually persist there. -/
def coupled (s : Slot) : Bool :=
  s.pipeline.isSome ==
    (match s.state with
     | .loading => true
     | .ready => true
     | .generating => true
     | .unloading => true
     | _ => false)

/-- Between operations a slot is never in a transitional state. -/
def atRest (s : Slot) : Bool :=
  match s.state with
  | .loading => false
  | .unloading => false
  | _ => true

/-- The boundary invariant: single residency, handle/state coupling and
absence of transitional states, for the whole table. -/
def inv (m : Manager) : Bool :=
  singleResident m.instantmesh m.sdxl &&
    coupled m.instantmesh && coupled m.sdxl &&
    atRest m.instantmesh && atRest m.sdxl

/-- Check that a trace event never shows the given slot in `loading`. -/
def neverLoadingAt (t : ModelType) : Event → Bool
  | .snap im sd =>
    (match t with
     | .instantmesh => !(im.state = ModelState.loading)
     | .sdxl => !(sd.state = ModelState.loading))
  | _ => true

/-- A gate event is non-blocking when it is not a plain `acquire()`. -/
def nonBlockingEvent : Event → Bool
  | .blockingAcquire => false
  | _ => true

/-- The other workload kind. -/
def ModelType.other : ModelType → ModelType
  | .instantmesh => .sdxl
  | .sdxl => .instantmesh

/-- The immutable configuration carried by a manager. -/
def Manager.config (m : Manager) : Nat × ℚ × ℚ × ℚ :=
  (m.restart_threshold, m.vram_buffer_gb,
    m.instantmesh_required_vram_gb, m.sdxl_required_vram_gb)

/-- A trace event never showing the InstantMesh backend being invoked. -/
def notMeshCompute : Event → Bool
  | .computeCall .instantmesh => false
  | _ => true

/-- A trace event showing neither slot in the `loading` state. -/
def noLoadingSnap : Event → Bool
  | .snap im sd =>
    !(im.state = ModelState.loading) && !(sd.state = ModelState.loading)
  | _ => true

/-- Instant-level check of invariant I2 on one trace event: both slots of
the snapshot satisfy the handle/state coupling. -/
def snapCoupled : Event → Bool
  | .snap im sd => coupled im && coupled sd
  | _ => true

/-- A probe report with plenty of free memory. -/
def goodVram : VramInfo := ⟨true, 100⟩

/-- A probe report with 4 GB free: insufficient for either model once the
2 GB buffer is added. -/
def lowVram : VramInfo := ⟨true, 4⟩

/-- A load environment in which every collaborator interaction succeeds. -/
def happyLoadEnv : LoadEnv := ⟨goodVram, true, true, true, true, true⟩

/-- A load environment whose backend acquisition raises. -/
def failAcquireEnv : LoadEnv := ⟨goodVram, true, true, true, false, true⟩

/-- A load environment with a truthful low-memory probe and every other
collaborator interaction succeeding. -/
def deniedLoadEnv : LoadEnv := ⟨lowVram, true, true, true, true, true⟩

/-- A load environment where admission will be denied and the `_clear_vram`
call inside the eviction of the InstantMesh slot raises. -/
def deniedEvictFailEnv : LoadEnv := ⟨lowVram, false, true, true, true, true⟩

/-- An image-generation environment in which everything succeeds, taking
one second. -/
def happyImageEnv : ImageEnv := ⟨happyLoadEnv, true, true, 1⟩

/-- An image-generation environment whose backend compute call raises. -/
def failImageEnv : ImageEnv := ⟨happyLoadEnv, false, true, 1⟩

/-- A mesh-generation environment in which everything succeeds. -/
def happyMeshEnv : MeshEnv := ⟨happyLoadEnv, true, true, true, true, true, 1⟩

/-- A mesh-generation environment in which the backend compute call returns
an object with none of the recognised mesh shapes. -/
def badShapeMeshEnv : MeshEnv := ⟨happyLoadEnv, true, true, true, false, true, 1⟩

/-- A pipeline environment in which both stages fully succeed. -/
def happyPipeEnv : PipeEnv := ⟨true, happyImageEnv, happyMeshEnv, 3⟩

/-- A pipeline environment in which stage A's backend raises. -/
def failImagePipeEnv : PipeEnv := ⟨true, failImageEnv, happyMeshEnv, 3⟩

section Lemmas

@[simp] lemma slot_instantmesh (m : Manager) :
    m.slot .instantmesh = m.instantmesh := rfl

@[simp] lemma slot_sdxl (m : Manager) : m.slot .sdxl = m.sdxl := rfl

@[simp] lemma setSlot_instantmesh (m : Manager) (s : Slot) :
    m.setSlot .instantmesh s = { m with instantmesh := s } := rfl

@[simp] lemma setSlot_sdxl (m : Manager) (s : Slot) :
    m.setSlot .sdxl s = { m with sdxl := s } := rfl

@[simp] lemma resident_eq (s : Slot) :
    resident s = (decide (s.state = .ready) || decide (s.state = .generating)) := by
  rcases s with ⟨st, p, l⟩; cases st <;> rfl

@[simp] lemma coupled_eq (s : Slot) :
    coupled s = (s.pipeline.isSome ==
      (decide (s.state = .loading) || decide (s.state = .ready) ||
        decide (s.state = .generating) || decide (s.state = .unloading))) := by
  rcases s with ⟨st, p , l⟩; cases st <;> cases p <;> rfl

@[simp] lemma atRest_eq (s : Slot) :
    atRest s = (!decide (s.state = .loading) && !decide (s.state = .unloading)) := by
  rcases s with ⟨st, p, l⟩; cases st <;> rfl

@[simp] lemma singleResident_eq (im sd : Slot) :
    singleResident im sd = !(resident im && resident sd) := rfl

lemma unload_model_trace_snapOk (m : Manager) (t : ModelType) (c : Bool) :
    (unload_model m t c).2.all snapOk = true := by
  cases t <;>
    simp only [unload_model, Manager.slot, Manager.setSlot, snapOf] <;>
    split_ifs <;>
    simp [snapOk, singleResident, resident]

lemma unload_model_target (m : Manager) (t : ModelType) (c : Bool) :
    ((unload_model m t c).1.slot t).pipeline = none ∧
      (((unload_model m t c).1.slot t).state = .unloaded ∨
        ((unload_model m t c).1.slot t).state = .error) ∨
      (unload_model m t c).1 = m ∧ (m.slot t).state = .unloaded ∧
        (unload_model m t c).2 = [] := by
  cases t <;>
    simp only [unload_model, Manager.slot, Manager.setSlot, snapOf] <;>
    split_ifs <;> simp_all

lemma unload_model_other (m : Manager) (t : ModelType) (c : Bool) :
    (unload_model m t c).1.slot t.other = m.slot t.other := by
  cases t <;>
    simp only [unload_model, Manager.slot, Manager.setSlot, ModelType.other] <;>
    split_ifs <;> simp_all

lemma unload_model_config (m : Manager) (t : ModelType) (c : Bool) :
    (unload_model m t c).1.config = m.config ∧
      (unload_model m t c).1.generation_lock = m.generation_lock ∧
      (unload_model m t c).1.generation_count = m.generation_count ∧
      (unload_model m t c).1.total_generation_time = m.total_generation_time := by
  cases t <;>
    simp only [unload_model, Manager.slot, Manager.setSlot, Manager.config] <;>
    split_ifs <;> simp_all

lemma unload_model_nonresident (m : Manager) (t : ModelType) (c : Bool) :
    resident ((unload_model m t c).1.slot t) =
      (resident (m.slot t) && decide ((m.slot t).state = .unloaded)) := by
  cases t <;>
    simp only [unload_model, Manager.slot, Manager.setSlot] <;>
    split_ifs <;> simp_all [resident]

lemma unload_model_noLoading (m : Manager) (t : ModelType) (c : Bool)
    (him : ¬ m.instantmesh.state = .loading)
    (hsd : ¬ m.sdxl.state = .loading) :
    (unload_model m t c).2.all noLoadingSnap = true ∧
      ¬ (unload_model m t c).1.instantmesh.state = .loading ∧
      ¬ (unload_model m t c).1.sdxl.state = .loading := by
  cases t <;>
    simp only [unload_model, Manager.slot, Manager.setSlot, snapOf] <;>
    split_ifs <;> simp_all [noLoadingSnap]

lemma unload_all_trace_snapOk (m : Manager) (cIm cSd : Bool) :
    (unload_all m cIm cSd).2.all snapOk = true := by
  simp only [unload_all, List.all_append, Bool.and_eq_true]
  exact ⟨unload_model_trace_snapOk .., unload_model_trace_snapOk ..⟩

lemma unload_all_config (m : Manager) (cIm cSd : Bool) :
    (unload_all m cIm cSd).1.config = m.config ∧
      (unload_all m cIm cSd).1.generation_lock = m.generation_lock ∧
      (unload_all m cIm cSd).1.generation_count = m.generation_count ∧
      (unload_all m cIm cSd).1.total_generation_time = m.total_generation_time := by
  simp only [unload_all]
  obtain ⟨h1, h2, h3, h4⟩ := unload_model_config m .instantmesh cIm
  obtain ⟨g1, g2, g3, g4⟩ :=
    unload_model_config (unload_model m .instantmesh cIm).1 .sdxl cSd
  exact ⟨g1.trans h1, g2.trans h2, g3.trans h3, g4.trans h4⟩

lemma unload_all_slots (m : Manager) (cIm cSd : Bool) :
    ((unload_all m cIm cSd).1.instantmesh.pipeline = none ∧
      ((unload_all m cIm cSd).1.instantmesh.state = .unloaded ∨
        (unload_all m cIm cSd).1.instantmesh.state = .error) ∨
      (unload_all m cIm cSd).1.instantmesh = m.instantmesh ∧
        m.instantmesh.state = .unloaded) ∧
    ((unload_all m cIm cSd).1.sdxl.pipeline = none ∧
      ((unload_all m cIm cSd).1.sdxl.state = .unloaded ∨
        (unload_all m cIm cSd).1.sdxl.state = .error) ∨
      (unload_all m cIm cSd).1.sdxl = m.sdxl ∧ m.sdxl.state = .unloaded) := by
  simp only [unload_all]
  have h1 := unload_model_target m .instantmesh cIm
  have h2 := unload_model_target (unload_model m .instantmesh cIm).1 .sdxl cSd
  have h3 := unload_model_other m .instantmesh cIm
  have h4 := unload_model_other (unload_model m .instantmesh cIm).1 .sdxl cSd
  simp only [Manager.slot, ModelType.other] at h1 h2 h3 h4
  constructor
  · rw [h4]
    rcases h1 with h | ⟨he, hs, _⟩
    · exact .inl h
    · rw [he]; exact .inr ⟨rfl, hs⟩
  · rcases h2 with h | ⟨he, hs, _⟩
    · exact .inl h
    · exact .inr ⟨by rw [he, h3], by rw [← h3]; exact hs⟩

lemma unload_all_nonresident (m : Manager) (cIm cSd : Bool) :
    (resident (unload_all m cIm cSd).1.instantmesh = false ∨
      (unload_all m cIm cSd).1.instantmesh = m.instantmesh ∧
        m.instantmesh.state = .unloaded) ∧
    (resident (unload_all m cIm cSd).1.sdxl = false ∨
      (unload_all m cIm cSd).1.sdxl = m.sdxl ∧ m.sdxl.state = .unloaded) := by
  have h := unload_all_slots m cIm cSd
  rcases h with ⟨h1 | h1, h2 | h2⟩ <;>
    first
    | exact ⟨.inl (by rcases h1.2 with h | h <;> simp [resident, h]),
        .inl (by rcases h2.2 with h | h <;> simp [resident, h])⟩
    | exact ⟨.inl (by rcases h1.2 with h | h <;> simp [resident, h]), .inr h2⟩
    | exact ⟨.inr h1, .inl (by rcases h2.2 with h | h <;> simp [resident, h])⟩
    | exact ⟨.inr h1, .inr h2⟩

lemma inv_parts (m : Manager) (h : inv m = true) :
    singleResident m.instantmesh m.sdxl = true ∧
      coupled m.instantmesh = true ∧ coupled m.sdxl = true ∧
      atRest m.instantmesh = true ∧ atRest m.sdxl = true := by
  simpa [inv, Bool.and_eq_true, and_assoc] using h

lemma coupled_unloaded (s : Slot) (hc : coupled s = true)
    (hs : s.state = .unloaded) : s.pipeline = none := by
  cases hp : s.pipeline <;> simp_all [coupled]

lemma unload_all_nonres (m : Manager) (cIm cSd : Bool) :
    resident (unload_all m cIm cSd).1.instantmesh = false ∧
      resident (unload_all m cIm cSd).1.sdxl = false := by
  obtain ⟨h1, h2⟩ := unload_all_nonresident m cIm cSd
  constructor
  · rcases h1 with h | ⟨he, hs⟩
    · exact h
    · rw [he]; simp [resident, hs]
  · rcases h2 with h | ⟨he, hs⟩
    · exact h
    · rw [he]; simp [resident, hs]

lemma unload_model_true_parts (m : Manager) (t : ModelType)
    (hc : coupled (m.slot t) = true) :
    ((unload_model m t true).1.slot t).state = .unloaded ∧
      ((unload_model m t true).1.slot t).pipeline = none ∧
      ((unload_model m t true).1.slot t).load_count = (m.slot t).load_count := by
  have hp := coupled_unloaded (m.slot t) hc
  cases t <;>
    simp only [unload_model, Manager.slot, Manager.setSlot, slot_instantmesh,
      slot_sdxl] at * <;>
    split_ifs <;> simp_all

lemma unload_all_true_parts (m : Manager) (hm : inv m = true) :
    ((unload_all m true true).1.instantmesh.state = .unloaded ∧
      (unload_all m true true).1.instantmesh.pipeline = none ∧
      (unload_all m true true).1.instantmesh.load_count =
        m.instantmesh.load_count) ∧
    ((unload_all m true true).1.sdxl.state = .unloaded ∧
      (unload_all m true true).1.sdxl.pipeline = none ∧
      (unload_all m true true).1.sdxl.load_count = m.sdxl.load_count) := by
  obtain ⟨-, hci, hcs, -, -⟩ := inv_parts m hm
  simp only [unload_all]
  have h1 := unload_model_true_parts m .instantmesh hci
  have h3 := unload_model_other m .instantmesh true
  have hcs' : coupled ((unload_model m .instantmesh true).1.slot .sdxl) = true := by
    simp only [ModelType.other] at h3
    rw [h3]; exact hcs
  have h2 := unload_model_true_parts (unload_model m .instantmesh true).1 .sdxl hcs'
  have h4 := unload_model_other (unload_model m .instantmesh true).1 .sdxl true
  simp only [ModelType.other, slot_instantmesh, slot_sdxl] at h1 h2 h3 h4
  refine ⟨⟨?_, ?_, ?_⟩, ?_⟩
  · rw [h4]; exact h1.1
  · rw [h4]; exact h1.2.1
  · rw [h4]; exact h1.2.2
  · rw [h3] at h2; exact h2

lemma unload_all_cleared (m : Manager) (cIm cSd : Bool) (hm : inv m = true) :
    ((unload_all m cIm cSd).1.instantmesh.pipeline = none ∧
      ((unload_all m cIm cSd).1.instantmesh.state = .unloaded ∨
        (unload_all m cIm cSd).1.instantmesh.state = .error)) ∧
    ((unload_all m cIm cSd).1.sdxl.pipeline = none ∧
      ((unload_all m cIm cSd).1.sdxl.state = .unloaded ∨
        (unload_all m cIm cSd).1.sdxl.state = .error)) := by
  obtain ⟨-, hci, hcs, -, -⟩ := inv_parts m hm
  obtain ⟨h1, h2⟩ := unload_all_slots m cIm cSd
  constructor
  · rcases h1 with h | ⟨he, hs⟩
    · exact ⟨h.1, h.2⟩
    · rw [he]; exact ⟨coupled_unloaded _ hci hs, .inl hs⟩
  · rcases h2 with h | ⟨he, hs⟩
    · exact ⟨h.1, h.2⟩
    · rw [he]; exact ⟨coupled_unloaded _ hcs hs, .inl hs⟩

lemma check_vram_budget_congr (m m' : Manager) (v : VramInfo) (r : ℚ)
    (h : m'.vram_buffer_gb = m.vram_buffer_gb) :
    check_vram_budget m' v r = check_vram_budget m v r := by
  simp [check_vram_budget, h]

lemma unload_all_noLoading (m : Manager) (cIm cSd : Bool)
    (him : ¬ m.instantmesh.state = .loading)
    (hsd : ¬ m.sdxl.state = .loading) :
    (unload_all m cIm cSd).2.all noLoadingSnap = true ∧
      ¬ (unload_all m cIm cSd).1.instantmesh.state = .loading ∧
      ¬ (unload_all m cIm cSd).1.sdxl.state = .loading := by
  simp only [unload_all, List.all_append, Bool.and_eq_true]
  obtain ⟨a1, a2, a3⟩ := unload_model_noLoading m .instantmesh cIm him hsd
  obtain ⟨b1, b2, b3⟩ :=
    unload_model_noLoading (unload_model m .instantmesh cIm).1 .sdxl cSd a2 a3
  exact ⟨⟨a1, b1⟩, b2, b3⟩

lemma unload_model_skip (m : Manager) (t : ModelType) (c : Bool)
    (h : (m.slot t).state = .unloaded) : unload_model m t c = (m, []) := by
  cases t <;> simp_all [unload_model]

lemma unload_all_skip_target (m : Manager) (cIm cSd : Bool) :
    (m.instantmesh.state = .unloaded →
      (unload_all m cIm cSd).1.instantmesh = m.instantmesh) ∧
    (m.sdxl.state = .unloaded →
      (unload_all m cIm cSd).1.sdxl = m.sdxl) := by
  constructor
  · intro h
    simp only [unload_all]
    rw [unload_model_skip m .instantmesh cIm (by simpa using h)]
    have h2 := unload_model_other m .sdxl cSd
    simp only [ModelType.other, slot_instantmesh] at h2
    exact h2
  · intro h
    simp only [unload_all]
    have h2 := unload_model_other m .instantmesh cIm
    simp only [ModelType.other, slot_sdxl] at h2
    rw [unload_model_skip (unload_model m .instantmesh cIm).1 .sdxl cSd
      (by simp only [slot_sdxl]; rw [h2]; exact h)]
    exact h2

lemma load_core_trace_snapOk (m : Manager) (t : ModelType) (req : ℚ)
    (env : LoadEnv) :
    (load_core m t req env).2.2.all snapOk = true := by
  have hni := (unload_all_nonres m env.evictClearIm env.evictClearSd).1
  have hns := (unload_all_nonres m env.evictClearIm env.evictClearSd).2
  have ht := unload_all_trace_snapOk m env.evictClearIm env.evictClearSd
  cases t
  all_goals
    simp only [load_core, slot_instantmesh, slot_sdxl, setSlot_instantmesh,
      setSlot_sdxl]
    revert hni hns ht
    generalize unload_all m env.evictClearIm env.evictClearSd = u
    intro hni hns ht
    split_ifs <;>
      simp_all [List.all_append, snapOf, snapOk]

lemma load_core_config (m : Manager) (t : ModelType) (req : ℚ)
    (env : LoadEnv) :
    (load_core m t req env).2.1.config = m.config ∧
      (load_core m t req env).2.1.generation_lock = m.generation_lock ∧
      (load_core m t req env).2.1.generation_count = m.generation_count ∧
      (load_core m t req env).2.1.total_generation_time =
        m.total_generation_time := by
  obtain ⟨c1, c2, c3, c4⟩ := unload_all_config m env.evictClearIm env.evictClearSd
  simp only [Manager.config, Prod.mk.injEq] at c1
  cases t
  all_goals
    simp only [load_core, slot_instantmesh, slot_sdxl, setSlot_instantmesh,
      setSlot_sdxl]
    revert c1 c2 c3 c4
    generalize unload_all m env.evictClearIm env.evictClearSd = u
    intro c1 c2 c3 c4
    split_ifs <;>
      simp_all [Manager.config]

lemma load_core_inv (m : Manager) (t : ModelType) (req : ℚ) (env : LoadEnv)
    (hm : inv m = true) :
    inv (load_core m t req env).2.1 = true := by
  obtain ⟨⟨hpi, hsi⟩, hps, hss⟩ :=
    unload_all_cleared m env.evictClearIm env.evictClearSd hm
  cases t
  all_goals
    simp only [load_core, slot_instantmesh, slot_sdxl, setSlot_instantmesh,
      setSlot_sdxl]
    revert hpi hsi hps hss
    generalize unload_all m env.evictClearIm env.evictClearSd = u
    intro hpi hsi hps hss
    split_ifs <;>
      first
        | exact hm
        | (rcases hsi with h | h <;> rcases hss with h' | h' <;>
            simp_all [inv])

lemma load_core_ready_noop (m : Manager) (t : ModelType) (req : ℚ)
    (env : LoadEnv) (h : (m.slot t).state = .ready) :
    load_core m t req env = (.ok true, m, []) := by
  simp [load_core, h]

lemma load_core_ok_ready (m : Manager) (t : ModelType) (req : ℚ)
    (env : LoadEnv) (h : (load_core m t req env).1 = .ok true) :
    ((load_core m t req env).2.1.slot t).state = .ready := by
  by_cases h1 : (m.slot t).state = ModelState.ready
  · rw [load_core_ready_noop m t req env h1]; exact h1
  · cases t
    all_goals
      simp only [load_core, slot_instantmesh, slot_sdxl, setSlot_instantmesh,
        setSlot_sdxl] at h h1 ⊢
      revert h
      generalize unload_all m env.evictClearIm env.evictClearSd = u
      intro h
      split_ifs at h ⊢ <;> simp_all

lemma load_core_happy (m : Manager) (t : ModelType) (req : ℚ) (env : LoadEnv)
    (hm : inv m = true)
    (hnr : ¬ (m.slot t).state = .ready)
    (hei : env.evictClearIm = true) (hes : env.evictClearSd = true)
    (hp : env.postEvictClearOk = true) (ha : env.acquireOk = true)
    (hc : check_vram_budget m env.vram req = true) :
    (load_core m t req env).1 = .ok true ∧
      ((load_core m t req env).2.1.slot t).state = .ready ∧
      ((load_core m t req env).2.1.slot t).pipeline = some () ∧
      ((load_core m t req env).2.1.slot t.other).state = .unloaded ∧
      ((load_core m t req env).2.1.slot t.other).pipeline = none := by
  have hbuf : (unload_all m true true).1.vram_buffer_gb = m.vram_buffer_gb := by
    have := (unload_all_config m true true).1
    simp only [Manager.config, Prod.mk.injEq] at this
    exact this.2.1
  have hcu : check_vram_budget (unload_all m true true).1 env.vram req = true := by
    rw [check_vram_budget_congr m _ env.vram req hbuf]; exact hc
  obtain ⟨⟨si, pi, -⟩, ss, ps, -⟩ := unload_all_true_parts m hm
  cases t
  all_goals
    simp only [load_core, slot_instantmesh, slot_sdxl, setSlot_instantmesh,
      setSlot_sdxl, ModelType.other, hei, hes]
    revert hcu si pi ss ps
    generalize unload_all m true true = u
    intro hcu si pi ss ps
    split_ifs <;> simp_all

lemma load_core_denied (m : Manager) (t : ModelType) (req : ℚ) (env : LoadEnv)
    (him : ¬ m.instantmesh.state = .loading)
    (hsd : ¬ m.sdxl.state = .loading)
    (hnr : ¬ (m.slot t).state = .ready)
    (hp : env.postEvictClearOk = true)
    (hc : check_vram_budget m env.vram req = false) :
    (load_core m t req env).1 = .ok false ∧
      (((load_core m t req env).2.1.slot t).state = .unloaded ∨
        ((load_core m t req env).2.1.slot t).state = .error) ∧
      (load_core m t req env).2.2.all noLoadingSnap = true ∧
      ((m.slot t).state = .unloaded →
        (load_core m t req env).2.1.slot t = m.slot t) := by
  have hbuf : (unload_all m env.evictClearIm env.evictClearSd).1.vram_buffer_gb
      = m.vram_buffer_gb := by
    have := (unload_all_config m env.evictClearIm env.evictClearSd).1
    simp only [Manager.config, Prod.mk.injEq] at this
    exact this.2.1
  have hcu : check_vram_budget
      (unload_all m env.evictClearIm env.evictClearSd).1 env.vram req = false := by
    rw [check_vram_budget_congr m _ env.vram req hbuf]; exact hc
  obtain ⟨htr, -, -⟩ :=
    unload_all_noLoading m env.evictClearIm env.evictClearSd him hsd
  obtain ⟨h1, h2⟩ := unload_all_slots m env.evictClearIm env.evictClearSd
  obtain ⟨k1, k2⟩ := unload_all_skip_target m env.evictClearIm env.evictClearSd
  cases t
  case instantmesh =>
    simp only [load_core, slot_instantmesh, setSlot_instantmesh]
    simp only [slot_instantmesh] at hnr
    revert hcu htr h1 k1
    generalize unload_all m env.evictClearIm env.evictClearSd = u
    intro hcu htr h1 k1
    rw [if_neg hnr, if_neg (by simp [hp]), if_pos hcu]
    refine ⟨rfl, ?_, htr, k1⟩
    show u.1.instantmesh.state = ModelState.unloaded ∨
      u.1.instantmesh.state = ModelState.error
    rcases h1 with h | ⟨he, hs⟩
    · exact h.2
    · rw [he]; exact .inl hs
  case sdxl =>
    simp only [load_core, slot_sdxl, setSlot_sdxl]
    simp only [slot_sdxl] at hnr
    revert hcu htr h2 k2
    generalize unload_all m env.evictClearIm env.evictClearSd = u
    intro hcu htr h2 k2
    rw [if_neg hnr, if_neg (by simp [hp]), if_pos hcu]
    refine ⟨rfl, ?_, htr, k2⟩
    show u.1.sdxl.state = ModelState.unloaded ∨ u.1.sdxl.state = ModelState.error
    rcases h2 with h | ⟨he, hs⟩
    · exact h.2
    · rw [he]; exact .inl hs

@[simp] lemma inv_lock (m : Manager) (b : Bool) :
    inv { m with generation_lock := b } = inv m := rfl

@[simp] lemma config_lock (m : Manager) (b : Bool) :
    Manager.config { m with generation_lock := b } = m.config := rfl

lemma coupled_ready_some (s : Slot) (hc : coupled s = true)
    (hs : s.state = .ready) : s.pipeline = some () := by
  cases hp : s.pipeline <;> simp_all

lemma resident_other_false (im sd : Slot) (h : singleResident im sd = true)
    (hr : resident im = true) : resident sd = false := by
  simp_all [singleResident]
  tauto

lemma gen_exc_spec (m : Manager) (t : ModelType) :
    (gen_exc m t).1.success = false ∧
      (gen_exc m t).2.1.config = m.config ∧
      (gen_exc m t).2.1.generation_lock = m.generation_lock ∧
      (gen_exc m t).2.1.generation_count = m.generation_count ∧
      (gen_exc m t).2.1.total_generation_time = m.total_generation_time := by
  cases t <;> simp [gen_exc, Manager.config]

lemma gen_exc_inv (m : Manager) (t : ModelType) (hm : inv m = true) :
    inv (gen_exc m t).2.1 = true ∧ (gen_exc m t).2.2.all snapOk = true := by
  obtain ⟨hsr, hci, hcs, hai, has⟩ := inv_parts m hm
  cases t
  case instantmesh =>
    cases hp : m.instantmesh.pipeline <;>
      cases hst : m.instantmesh.state <;>
      simp_all [gen_exc, inv, snapOf, snapOk]
  case sdxl =>
    cases hp : m.sdxl.pipeline <;>
      cases hst : m.sdxl.state <;>
      simp_all [gen_exc, inv, snapOf, snapOk]

lemma mesh_after_inv (m1 : Manager) (env : MeshEnv) (p : String)
    (hm : inv m1 = true) (hr : m1.instantmesh.state = .ready) :
    inv (generate_mesh_after_load m1 env p).2.1 = true ∧
      (generate_mesh_after_load m1 env p).2.2.all snapOk = true := by
  obtain ⟨hsr, hci, hcs, hai, has⟩ := inv_parts m1 hm
  have hp : m1.instantmesh.pipeline = some () := coupled_ready_some _ hci hr
  have hns : resident m1.sdxl = false := by
    refine resident_other_false _ _ hsr ?_
    simp [hr]
  simp only [generate_mesh_after_load, slot_instantmesh, setSlot_instantmesh, hp]
  split_ifs <;>
    simp_all [gen_exc, inv, snapOf, snapOk, List.all_append]

lemma mesh_after_misc (m1 : Manager) (env : MeshEnv) (p : String) :
    (generate_mesh_after_load m1 env p).2.1.config = m1.config ∧
      (generate_mesh_after_load m1 env p).2.1.generation_lock =
        m1.generation_lock := by
  cases hp : m1.instantmesh.pipeline <;>
    simp only [generate_mesh_after_load, slot_instantmesh, setSlot_instantmesh,
      hp] <;>
    split_ifs <;>
    simp_all [gen_exc, Manager.config]

lemma mesh_after_count (m1 : Manager) (env : MeshEnv) (p : String)
    (h : (generate_mesh_after_load m1 env p).1.success = true) :
    (generate_mesh_after_load m1 env p).2.1.generation_count =
      m1.generation_count + 1 := by
  cases hp : m1.instantmesh.pipeline <;>
    simp only [generate_mesh_after_load, slot_instantmesh, setSlot_instantmesh,
      hp] at h ⊢ <;>
    split_ifs at h ⊢ <;>
    simp_all [gen_exc]

lemma mesh_after_happy (m1 : Manager) (env : MeshEnv) (p : String)
    (hp : m1.instantmesh.pipeline = some ())
    (hio : env.imageOk = true) (hco : env.computeOk = true)
    (hex : env.exportOk = true) (hsh : env.shapeRecognized = true)
    (hpo : env.postOk = true) :
    (generate_mesh_after_load m1 env p).1 =
      { success := true, output_path := some p,
        generation_time := some (pyRound2 env.duration) } ∧
      (generate_mesh_after_load m1 env p).2.1.instantmesh.state = .ready ∧
      (generate_mesh_after_load m1 env p).2.1.instantmesh.pipeline = some () ∧
      (generate_mesh_after_load m1 env p).2.1.sdxl = m1.sdxl := by
  simp [generate_mesh_after_load, hp, hio, hco, hex, hsh, hpo]

lemma mesh_body_inv (m0 : Manager) (env : MeshEnv) (p : String)
    (hm : inv m0 = true) :
    inv (generate_mesh_body m0 env p).2.1 = true ∧
      (generate_mesh_body m0 env p).2.2.all snapOk = true := by
  by_cases hr : (m0.slot .instantmesh).state = ModelState.ready
  · simp only [generate_mesh_body, if_pos hr]
    exact mesh_after_inv m0 env p hm (by simpa using hr)
  · simp only [generate_mesh_body, if_neg hr]
    rcases hl : load_instantmesh m0 env.load with ⟨r, m1, e1⟩
    have hl' : load_core m0 .instantmesh m0.instantmesh_required_vram_gb env.load
        = (r, m1, e1) := hl
    have hinv : inv m1 = true := by
      have := load_core_inv m0 .instantmesh m0.instantmesh_required_vram_gb
        env.load hm
      rw [hl'] at this
      simpa using this
    have htr : e1.all snapOk = true := by
      have := load_core_trace_snapOk m0 .instantmesh
        m0.instantmesh_required_vram_gb env.load
      rw [hl'] at this
      simpa using this
    rcases r with u | b
    · obtain ⟨g1, g2⟩ := gen_exc_inv m1 .instantmesh hinv
      simp [hl, List.all_append, htr, g1, g2]
    · rcases b with - | -
      · simp [hl, hinv, htr]
      · have hready : m1.instantmesh.state = .ready := by
          have := load_core_ok_ready m0 .instantmesh
            m0.instantmesh_required_vram_gb env.load (by rw [hl'])
          rw [hl'] at this
          simpa using this
        obtain ⟨g1, g2⟩ := mesh_after_inv m1 env p hinv hready
        simp [hl, List.all_append, htr, g1, g2]

lemma mesh_body_misc (m0 : Manager) (env : MeshEnv) (p : String) :
    (generate_mesh_body m0 env p).2.1.config = m0.config ∧
      (generate_mesh_body m0 env p).2.1.generation_lock =
        m0.generation_lock := by
  by_cases hr : (m0.slot .instantmesh).state = ModelState.ready
  · simp only [generate_mesh_body, if_pos hr]
    exact mesh_after_misc m0 env p
  · simp only [generate_mesh_body, if_neg hr]
    rcases hl : load_instantmesh m0 env.load with ⟨r, m1, e1⟩
    have hl' : load_core m0 .instantmesh m0.instantmesh_required_vram_gb env.load
        = (r, m1, e1) := hl
    obtain ⟨c1, c2, -, -⟩ := load_core_config m0 .instantmesh
      m0.instantmesh_required_vram_gb env.load
    rw [hl'] at c1 c2
    simp only at c1 c2
    rcases r with u | b
    · obtain ⟨-, g2, g3, -, -⟩ := gen_exc_spec m1 .instantmesh
      simp [hl, g2, g3, c1, c2]
    · rcases b with - | -
      · simp [hl, c1, c2]
      · obtain ⟨g1, g2⟩ := mesh_after_misc m1 env p
        simp [hl, g1, g2, c1, c2]

lemma mesh_body_count (m0 : Manager) (env : MeshEnv) (p : String)
    (h : (generate_mesh_body m0 env p).1.success = true) :
    (generate_mesh_body m0 env p).2.1.generation_count =
      m0.generation_count + 1 := by
  by_cases hr : (m0.slot .instantmesh).state = ModelState.ready
  · simp only [generate_mesh_body, if_pos hr] at h ⊢
    exact mesh_after_count m0 env p h
  · simp only [generate_mesh_body, if_neg hr] at h ⊢
    rcases hl : load_instantmesh m0 env.load with ⟨r, m1, e1⟩
    have hl' : load_core m0 .instantmesh m0.instantmesh_required_vram_gb env.load
        = (r, m1, e1) := hl
    obtain ⟨-, -, c3, -⟩ := load_core_config m0 .instantmesh
      m0.instantmesh_required_vram_gb env.load
    rw [hl'] at c3
    simp only at c3
    rcases r with u | b
    · rw [hl] at h
      simp [gen_exc] at h
    · rcases b with - | -
      · rw [hl] at h
        simp at h
      · rw [hl] at h
        show (generate_mesh_after_load m1 env p).2.1.generation_count =
          m0.generation_count + 1
        have h' : (generate_mesh_after_load m1 env p).1.success = true := h
        rw [mesh_after_count m1 env p h', c3]

lemma resident_other_false' (im sd : Slot) (h : singleResident im sd = true)
    (hr : resident sd = true) : resident im = false := by
  simp_all [singleResident]
  tauto

lemma unload_model_trace_flags (m : Manager) (t : ModelType) (c : Bool) :
    (unload_model m t c).2.all nonBlockingEvent = true ∧
      (unload_model m t c).2.all notMeshCompute = true := by
  cases t <;>
    simp only [unload_model, Manager.slot, Manager.setSlot, snapOf] <;>
    split_ifs <;>
    simp [nonBlockingEvent, notMeshCompute]

lemma unload_all_trace_flags (m : Manager) (cIm cSd : Bool) :
    (unload_all m cIm cSd).2.all nonBlockingEvent = true ∧
      (unload_all m cIm cSd).2.all notMeshCompute = true := by
  obtain ⟨a1, a2⟩ := unload_model_trace_flags m .instantmesh cIm
  obtain ⟨b1, b2⟩ :=
    unload_model_trace_flags (unload_model m .instantmesh cIm).1 .sdxl cSd
  simp only [unload_all, List.all_append, Bool.and_eq_true]
  exact ⟨⟨a1, b1⟩, a2, b2⟩

lemma load_core_trace_flags (m : Manager) (t : ModelType) (req : ℚ)
    (env : LoadEnv) :
    (load_core m t req env).2.2.all nonBlockingEvent = true ∧
      (load_core m t req env).2.2.all notMeshCompute = true := by
  have h1 := unload_all_trace_flags m env.evictClearIm env.evictClearSd
  cases t
  all_goals
    simp only [load_core, slot_instantmesh, slot_sdxl, setSlot_instantmesh,
      setSlot_sdxl]
    revert h1
    generalize unload_all m env.evictClearIm env.evictClearSd = u
    intro h1
    split_ifs <;>
      simp_all [List.all_append, snapOf, nonBlockingEvent, notMeshCompute]

lemma gen_exc_trace_flags (m : Manager) (t : ModelType) :
    (gen_exc m t).2.2.all nonBlockingEvent = true ∧
      (gen_exc m t).2.2.all notMeshCompute = true := by
  cases t <;> simp [gen_exc, nonBlockingEvent, notMeshCompute, snapOf]

lemma mesh_after_nb (m1 : Manager) (env : MeshEnv) (p : String) :
    (generate_mesh_after_load m1 env p).2.2.all nonBlockingEvent = true := by
  cases hp : m1.instantmesh.pipeline <;>
    simp only [generate_mesh_after_load, slot_instantmesh, setSlot_instantmesh,
      hp] <;>
    split_ifs <;>
    simp [gen_exc, nonBlockingEvent, snapOf, List.all_append]

lemma mesh_body_nb (m0 : Manager) (env : MeshEnv) (p : String) :
    (generate_mesh_body m0 env p).2.2.all nonBlockingEvent = true := by
  by_cases hr : (m0.slot .instantmesh).state = ModelState.ready
  · simp only [generate_mesh_body, if_pos hr]
    exact mesh_after_nb m0 env p
  · simp only [generate_mesh_body, if_neg hr]
    rcases hl : load_instantmesh m0 env.load with ⟨r, m1, e1⟩
    have hl' : load_core m0 .instantmesh m0.instantmesh_required_vram_gb env.load
        = (r, m1, e1) := hl
    have hld := (load_core_trace_flags m0 .instantmesh
      m0.instantmesh_required_vram_gb env.load).1
    rw [hl'] at hld
    simp only at hld
    rcases r with u | b
    · have := (gen_exc_trace_flags m1 .instantmesh).1
      simp [List.all_append, hld, this]
    · rcases b with - | -
      · simp [hld]
      · have := mesh_after_nb m1 env p
        simp [List.all_append, hld, this]

lemma generate_mesh_spec (m : Manager) (env : MeshEnv) (p : String)
    (hm : inv m = true) :
    inv (generate_mesh m env p).2.1 = true ∧
      (generate_mesh m env p).2.2.all snapOk = true ∧
      (generate_mesh m env p).2.1.config = m.config ∧
      (generate_mesh m env p).2.1.generation_lock = m.generation_lock := by
  by_cases hl : m.generation_lock = true
  · simp [generate_mesh, hl, snapOk, hm]
  · obtain ⟨b1, b2⟩ :=
      mesh_body_inv { m with generation_lock := true } env p (by simpa using hm)
    obtain ⟨b3, b4⟩ := mesh_body_misc { m with generation_lock := true } env p
    simp only [config_lock] at b3
    have hl0 : m.generation_lock = false := by simpa using hl
    simp [generate_mesh, hl, List.all_cons, List.all_append, snapOk,
      b1, b2, b3, hl0]

lemma generate_mesh_nonblocking (m : Manager) (env : MeshEnv) (p : String) :
    (generate_mesh m env p).2.2.all nonBlockingEvent = true := by
  by_cases hl : m.generation_lock = true
  · simp [generate_mesh, hl, nonBlockingEvent]
  · have hb := mesh_body_nb { m with generation_lock := true } env p
    simp [generate_mesh, hl, List.all_cons, List.all_append, nonBlockingEvent,
      hb]

lemma generate_mesh_count (m : Manager) (env : MeshEnv) (p : String)
    (h : (generate_mesh m env p).1.success = true) :
    (generate_mesh m env p).2.1.generation_count = m.generation_count + 1 := by
  by_cases hl : m.generation_lock = true
  · simp [generate_mesh, hl] at h
  · simp only [generate_mesh] at h ⊢
    rw [if_neg hl] at h ⊢
    have h' : (generate_mesh_body { m with generation_lock := true } env p).1.success
        = true := h
    exact mesh_body_count { m with generation_lock := true } env p h'

lemma generate_mesh_happy (m : Manager) (env : MeshEnv) (p : String)
    (hm : inv m = true) (hlk : ¬ m.generation_lock = true)
    (hnr : ¬ m.instantmesh.state = .ready)
    (lei : env.load.evictClearIm = true) (les : env.load.evictClearSd = true)
    (lpe : env.load.postEvictClearOk = true) (lac : env.load.acquireOk = true)
    (hio : env.imageOk = true) (hco : env.computeOk = true)
    (hex : env.exportOk = true) (hsh : env.shapeRecognized = true)
    (hpo : env.postOk = true)
    (hc : check_vram_budget m env.load.vram m.instantmesh_required_vram_gb
      = true) :
    (generate_mesh m env p).1 =
      { success := true, output_path := some p,
        generation_time := some (pyRound2 env.duration) } ∧
      (generate_mesh m env p).2.1.instantmesh.state = .ready ∧
      (generate_mesh m env p).2.1.sdxl.state = .unloaded ∧
      (generate_mesh m env p).2.1.generation_lock = false := by
  have hm' : inv { m with generation_lock := true } = true := by simpa using hm
  have hc' : check_vram_budget { m with generation_lock := true }
      env.load.vram m.instantmesh_required_vram_gb = true := by
    rw [check_vram_budget_congr m { m with generation_lock := true }
      env.load.vram m.instantmesh_required_vram_gb rfl]
    exact hc
  obtain ⟨f1, f2, f3, f4, f5⟩ := load_core_happy { m with generation_lock := true }
    .instantmesh m.instantmesh_required_vram_gb env.load hm' (by simpa using hnr)
    lei les lpe lac hc'
  rcases hl : load_instantmesh { m with generation_lock := true } env.load
    with ⟨r, m1, e1⟩
  have hl' : load_core { m with generation_lock := true } .instantmesh
      m.instantmesh_required_vram_gb env.load = (r, m1, e1) := hl
  rw [hl'] at f1 f2 f3 f4 f5
  simp only [ModelType.other, slot_instantmesh, slot_sdxl] at f1 f2 f3 f4 f5
  subst f1
  obtain ⟨g1, g2, g3, g4⟩ := mesh_after_happy m1 env p f3 hio hco hex hsh hpo
  simp only [generate_mesh, if_neg hlk, generate_mesh_body,
    slot_instantmesh, if_neg (by simpa using hnr), hl]
  refine ⟨g1, g2, ?_, ?_⟩
  · show (generate_mesh_after_load m1 env p).2.1.sdxl.state = ModelState.unloaded
    rw [g4, f4]
  · trivial

lemma image_after_inv (m1 : Manager) (env : ImageEnv) (p : String)
    (hm : inv m1 = true) (hr : m1.sdxl.state = .ready) :
    inv (generate_image_after_load m1 env p).2.1 = true ∧
      (generate_image_after_load m1 env p).2.2.all snapOk = true := by
  obtain ⟨hsr, hci, hcs, hai, has⟩ := inv_parts m1 hm
  have hp : m1.sdxl.pipeline = some () := coupled_ready_some _ hcs hr
  have hns : resident m1.instantmesh = false := by
    refine resident_other_false' _ _ hsr ?_
    simp [hr]
  simp only [generate_image_after_load, slot_sdxl, setSlot_sdxl, hp]
  split_ifs <;>
    simp_all [gen_exc, inv, snapOf, snapOk, List.all_append]

lemma image_after_misc (m1 : Manager) (env : ImageEnv) (p : String) :
    (generate_image_after_load m1 env p).2.1.config = m1.config ∧
      (generate_image_after_load m1 env p).2.1.generation_lock =
        m1.generation_lock := by
  cases hp : m1.sdxl.pipeline <;>
    simp only [generate_image_after_load, slot_sdxl, setSlot_sdxl, hp] <;>
    ((try split_ifs) <;> simp_all [gen_exc, Manager.config])

lemma image_after_count (m1 : Manager) (env : ImageEnv) (p : String)
    (h : (generate_image_after_load m1 env p).1.success = true) :
    (generate_image_after_load m1 env p).2.1.generation_count =
      m1.generation_count + 1 := by
  cases hp : m1.sdxl.pipeline <;>
    simp only [generate_image_after_load, slot_sdxl, setSlot_sdxl, hp]
      at h ⊢ <;>
    ((try split_ifs at h ⊢) <;> simp_all [gen_exc])

lemma image_after_happy (m1 : Manager) (env : ImageEnv) (p : String)
    (hp : m1.sdxl.pipeline = some ())
    (hco : env.computeOk = true) (hpo : env.postOk = true) :
    (generate_image_after_load m1 env p).1 =
      { success := true, output_path := some p,
        generation_time := some (pyRound2 env.duration) } ∧
      (generate_image_after_load m1 env p).2.1.sdxl.state = .ready ∧
      (generate_image_after_load m1 env p).2.1.sdxl.pipeline = some () ∧
      (generate_image_after_load m1 env p).2.1.instantmesh = m1.instantmesh := by
  simp [generate_image_after_load, hp, hco, hpo]

lemma image_after_flags (m1 : Manager) (env : ImageEnv) (p : String) :
    (generate_image_after_load m1 env p).2.2.all nonBlockingEvent = true ∧
      (generate_image_after_load m1 env p).2.2.all notMeshCompute = true := by
  cases hp : m1.sdxl.pipeline <;>
    simp only [generate_image_after_load, slot_sdxl, setSlot_sdxl, hp] <;>
    ((try split_ifs) <;>
      simp [gen_exc, nonBlockingEvent, notMeshCompute, snapOf,
        List.all_append])

lemma image_body_inv (m0 : Manager) (env : ImageEnv) (p : String)
    (hm : inv m0 = true) :
    inv (generate_image_body m0 env p).2.1 = true ∧
      (generate_image_body m0 env p).2.2.all snapOk = true := by
  by_cases hr : (m0.slot .sdxl).state = ModelState.ready
  · simp only [generate_image_body, if_pos hr]
    exact image_after_inv m0 env p hm (by simpa using hr)
  · simp only [generate_image_body, if_neg hr]
    rcases hl : load_sdxl m0 env.load with ⟨r, m1, e1⟩
    have hl' : load_core m0 .sdxl m0.sdxl_required_vram_gb env.load
        = (r, m1, e1) := hl
    have hinv : inv m1 = true := by
      have := load_core_inv m0 .sdxl m0.sdxl_required_vram_gb env.load hm
      rw [hl'] at this
      simpa using this
    have htr : e1.all snapOk = true := by
      have := load_core_trace_snapOk m0 .sdxl m0.sdxl_required_vram_gb env.load
      rw [hl'] at this
      simpa using this
    rcases r with u | b
    · obtain ⟨g1, g2⟩ := gen_exc_inv m1 .sdxl hinv
      simp [hl, List.all_append, htr, g1, g2]
    · rcases b with - | -
      · simp [hl, hinv, htr]
      · have hready : m1.sdxl.state = .ready := by
          have := load_core_ok_ready m0 .sdxl m0.sdxl_required_vram_gb env.load
            (by rw [hl'])
          rw [hl'] at this
          simpa using this
        obtain ⟨g1, g2⟩ := image_after_inv m1 env p hinv hready
        simp [hl, List.all_append, htr, g1, g2]

lemma image_body_misc (m0 : Manager) (env : ImageEnv) (p : String) :
    (generate_image_body m0 env p).2.1.config = m0.config ∧
      (generate_image_body m0 env p).2.1.generation_lock =
        m0.generation_lock := by
  by_cases hr : (m0.slot .sdxl).state = ModelState.ready
  · simp only [generate_image_body, if_pos hr]
    exact image_after_misc m0 env p
  · simp only [generate_image_body, if_neg hr]
    rcases hl : load_sdxl m0 env.load with ⟨r, m1, e1⟩
    have hl' : load_core m0 .sdxl m0.sdxl_required_vram_gb env.load
        = (r, m1, e1) := hl
    obtain ⟨c1, c2, -, -⟩ := load_core_config m0 .sdxl m0.sdxl_required_vram_gb
      env.load
    rw [hl'] at c1 c2
    simp only at c1 c2
    rcases r with u | b
    · obtain ⟨-, g2, g3, -, -⟩ := gen_exc_spec m1 .sdxl
      simp [hl, g2, g3, c1, c2]
    · rcases b with - | -
      · simp [hl, c1, c2]
      · obtain ⟨g1, g2⟩ := image_after_misc m1 env p
        simp [hl, g1, g2, c1, c2]

lemma image_body_count (m0 : Manager) (env : ImageEnv) (p : String)
    (h : (generate_image_body m0 env p).1.success = true) :
    (generate_image_body m0 env p).2.1.generation_count =
      m0.generation_count + 1 := by
  by_cases hr : (m0.slot .sdxl).state = ModelState.ready
  · simp only [generate_image_body, if_pos hr] at h ⊢
    exact image_after_count m0 env p h
  · simp only [generate_image_body, if_neg hr] at h ⊢
    rcases hl : load_sdxl m0 env.load with ⟨r, m1, e1⟩
    have hl' : load_core m0 .sdxl m0.sdxl_required_vram_gb env.load
        = (r, m1, e1) := hl
    obtain ⟨-, -, c3, -⟩ := load_core_config m0 .sdxl m0.sdxl_required_vram_gb
      env.load
    rw [hl'] at c3
    simp only at c3
    rcases r with u | b
    · rw [hl] at h
      simp [gen_exc] at h
    · rcases b with - | -
      · rw [hl] at h
        simp at h
      · rw [hl] at h
        show (generate_image_after_load m1 env p).2.1.generation_count =
          m0.generation_count + 1
        have h' : (generate_image_after_load m1 env p).1.success = true := h
        rw [image_after_count m1 env p h', c3]

lemma image_body_flags (m0 : Manager) (env : ImageEnv) (p : String) :
    (generate_image_body m0 env p).2.2.all nonBlockingEvent = true ∧
      (generate_image_body m0 env p).2.2.all notMeshCompute = true := by
  by_cases hr : (m0.slot .sdxl).state = ModelState.ready
  · simp only [generate_image_body, if_pos hr]
    exact image_after_flags m0 env p
  · simp only [generate_image_body, if_neg hr]
    rcases hl : load_sdxl m0 env.load with ⟨r, m1, e1⟩
    have hl' : load_core m0 .sdxl m0.sdxl_required_vram_gb env.load
        = (r, m1, e1) := hl
    obtain ⟨hld1, hld2⟩ := load_core_trace_flags m0 .sdxl m0.sdxl_required_vram_gb
      env.load
    rw [hl'] at hld1 hld2
    simp only at hld1 hld2
    rcases r with u | b
    · obtain ⟨k1, k2⟩ := gen_exc_trace_flags m1 .sdxl
      simp [List.all_append, hld1, hld2, k1, k2]
    · rcases b with - | -
      · simp [hld1, hld2]
      · obtain ⟨k1, k2⟩ := image_after_flags m1 env p
        simp [List.all_append, hld1, hld2, k1, k2]

lemma generate_image_spec (m : Manager) (env : ImageEnv) (p : String)
    (hm : inv m = true) :
    inv (generate_image m env p).2.1 = true ∧
      (generate_image m env p).2.2.all snapOk = true ∧
      (generate_image m env p).2.1.config = m.config ∧
      (generate_image m env p).2.1.generation_lock = m.generation_lock := by
  by_cases hl : m.generation_lock = true
  · simp [generate_image, hl, snapOk, hm]
  · obtain ⟨b1, b2⟩ :=
      image_body_inv { m with generation_lock := true } env p (by simpa using hm)
    obtain ⟨b3, b4⟩ := image_body_misc { m with generation_lock := true } env p
    simp only [config_lock] at b3
    have hl0 : m.generation_lock = false := by simpa using hl
    simp [generate_image, hl, List.all_cons, List.all_append, snapOk,
      b1, b2, b3, hl0]

lemma generate_image_flags (m : Manager) (env : ImageEnv) (p : String) :
    (generate_image m env p).2.2.all nonBlockingEvent = true ∧
      (generate_image m env p).2.2.all notMeshCompute = true := by
  by_cases hl : m.generation_lock = true
  · simp [generate_image, hl, nonBlockingEvent, notMeshCompute]
  · obtain ⟨b1, b2⟩ := image_body_flags { m with generation_lock := true } env p
    simp [generate_image, hl, List.all_cons, List.all_append,
      nonBlockingEvent, notMeshCompute, b1, b2]

lemma generate_image_count (m : Manager) (env : ImageEnv) (p : String)
    (h : (generate_image m env p).1.success = true) :
    (generate_image m env p).2.1.generation_count = m.generation_count + 1 := by
  by_cases hl : m.generation_lock = true
  · simp [generate_image, hl] at h
  · simp only [generate_image] at h ⊢
    rw [if_neg hl] at h ⊢
    have h' : (generate_image_body { m with generation_lock := true } env
        p).1.success = true := h
    exact image_body_count { m with generation_lock := true } env p h'

lemma generate_image_config (m : Manager) (env : ImageEnv) (p : String) :
    (generate_image m env p).2.1.config = m.config := by
  by_cases hl : m.generation_lock = true
  · simp [generate_image, hl]
  · obtain ⟨b3, -⟩ := image_body_misc { m with generation_lock := true } env p
    simp only [config_lock] at b3
    simp [generate_image, hl, b3]

lemma generate_image_happy (m : Manager) (env : ImageEnv) (p : String)
    (hm : inv m = true) (hlk : ¬ m.generation_lock = true)
    (lei : env.load.evictClearIm = true) (les : env.load.evictClearSd = true)
    (lpe : env.load.postEvictClearOk = true) (lac : env.load.acquireOk = true)
    (hco : env.computeOk = true) (hpo : env.postOk = true)
    (hc : check_vram_budget m env.load.vram m.sdxl_required_vram_gb = true) :
    (generate_image m env p).1 =
      { success := true, output_path := some p,
        generation_time := some (pyRound2 env.duration) } ∧
      (generate_image m env p).2.1.sdxl.state = .ready ∧
      inv (generate_image m env p).2.1 = true ∧
      (generate_image m env p).2.1.generation_lock = false ∧
      (generate_image m env p).2.1.config = m.config := by
  have hm' : inv { m with generation_lock := true } = true := by simpa using hm
  obtain ⟨s1, s2, s3, -⟩ := generate_image_spec m env p hm
  by_cases hr : m.sdxl.state = ModelState.ready
  · have hp : m.sdxl.pipeline = some () :=
      coupled_ready_some _ (inv_parts m hm).2.2.1 hr
    obtain ⟨g1, g2, g3, g4⟩ := image_after_happy { m with generation_lock := true }
      env p hp hco hpo
    simp only [generate_image, if_neg hlk, generate_image_body, slot_sdxl,
      if_pos (show ({ m with generation_lock := true }).sdxl.state =
        ModelState.ready from hr)]
    refine ⟨g1, g2, ?_, ?_, ?_⟩
    · have := s2
      simp only [generate_image, if_neg hlk, generate_image_body, slot_sdxl,
        if_pos (show ({ m with generation_lock := true }).sdxl.state =
          ModelState.ready from hr)] at s1
      exact s1
    · trivial
    · have := s3
      simp only [generate_image, if_neg hlk, generate_image_body, slot_sdxl,
        if_pos (show ({ m with generation_lock := true }).sdxl.state =
          ModelState.ready from hr)] at this
      exact this
  · have hc' : check_vram_budget { m with generation_lock := true }
        env.load.vram m.sdxl_required_vram_gb = true := by
      rw [check_vram_budget_congr m { m with generation_lock := true }
        env.load.vram m.sdxl_required_vram_gb rfl]
      exact hc
    obtain ⟨f1, f2, f3, f4, f5⟩ := load_core_happy
      { m with generation_lock := true } .sdxl m.sdxl_required_vram_gb env.load
      hm' (by simpa using hr) lei les lpe lac hc'
    rcases hl : load_sdxl { m with generation_lock := true } env.load
      with ⟨r, m1, e1⟩
    have hl' : load_core { m with generation_lock := true } .sdxl
        m.sdxl_required_vram_gb env.load = (r, m1, e1) := hl
    rw [hl'] at f1 f2 f3 f4 f5
    simp only [ModelType.other, slot_instantmesh, slot_sdxl] at f1 f2 f3 f4 f5
    subst f1
    obtain ⟨g1, g2, g3, g4⟩ := image_after_happy m1 env p f3 hco hpo
    simp only [generate_image, if_neg hlk, generate_image_body, slot_sdxl,
      if_neg (show ¬ ({ m with generation_lock := true }).sdxl.state =
        ModelState.ready from hr), hl] at s1 s2 s3 ⊢
    exact ⟨g1, g2, s1, by trivial, s3⟩

lemma unload_model_inv (m : Manager) (t : ModelType) (c : Bool)
    (hm : inv m = true) : inv (unload_model m t c).1 = true := by
  obtain ⟨hsr, hci, hcs, hai, has⟩ := inv_parts m hm
  have h1 := unload_model_target m t c
  have h2 := unload_model_other m t c
  cases t
  all_goals
    simp only [ModelType.other, slot_instantmesh, slot_sdxl] at h1 h2
    rcases h1 with ⟨hp, hs⟩ | ⟨he, -, -⟩
    · rcases hs with hs | hs <;>
        simp_all [inv]
    · rw [he]; exact hm

lemma unload_all_inv (m : Manager) (cIm cSd : Bool) (hm : inv m = true) :
    inv (unload_all m cIm cSd).1 = true := by
  simp only [unload_all]
  exact unload_model_inv _ .sdxl cSd (unload_model_inv m .instantmesh cIm hm)

lemma pipeline_spec (m : Manager) (env : PipeEnv) (d : String)
    (hm : inv m = true) :
    inv (generate_full_pipeline m env d).2.1 = true ∧
      (generate_full_pipeline m env d).2.2.all snapOk = true ∧
      (generate_full_pipeline m env d).2.1.config = m.config ∧
      (generate_full_pipeline m env d).2.1.generation_lock =
        m.generation_lock := by
  by_cases hl : m.generation_lock = true
  · simp [generate_full_pipeline, hl, snapOk, hm]
  · have hl0 : m.generation_lock = false := by simpa using hl
    by_cases hmk : env.mkdirOk = false
    · simp [generate_full_pipeline, hl, hmk, snapOk, hm, hl0, Manager.config]
    · obtain ⟨i1, i2, i3, i4⟩ := generate_image_spec
        { m with generation_lock := false } env.stage1
        (d ++ "/generated_image.png") (by simpa using hm)
      rcases hs1 : generate_image { m with generation_lock := false }
        env.stage1 (d ++ "/generated_image.png") with ⟨r1, m1, e1⟩
      rw [hs1] at i1 i2 i3 i4
      simp only [config_lock] at i3
      by_cases hr1 : r1.success = false
      · simp [generate_full_pipeline, hl, hmk, hs1, hr1, snapOk, List.all_cons,
          List.all_append, i1, i2, i3, i4, hl0]
      · obtain ⟨j1, j2, j3, j4⟩ := generate_mesh_spec
          { m1 with generation_lock := false } env.stage2
          (d ++ "/generated_mesh.glb") (by simpa using i1)
        rcases hs2 : generate_mesh { m1 with generation_lock := false }
          env.stage2 (d ++ "/generated_mesh.glb") with ⟨r2, m2, e2⟩
        rw [hs2] at j1 j2 j3 j4
        simp only [config_lock] at j3
        by_cases hr2 : r2.success = false <;>
          simp [generate_full_pipeline, hl, hmk, hs1, hr1, hs2, hr2, snapOk,
            List.all_cons, List.all_append, i1, i2, i3, i4, j1, j2, j3, j4,
            hl0]

lemma step_inv (m : Manager) (op : Op) (hm : inv m = true) :
    inv (step m op).1 = true ∧ (step m op).2.all snapOk = true := by
  cases op
  case loadInstantmesh env =>
    exact ⟨load_core_inv m .instantmesh m.instantmesh_required_vram_gb env hm,
      load_core_trace_snapOk m .instantmesh m.instantmesh_required_vram_gb env⟩
  case loadSdxl env =>
    exact ⟨load_core_inv m .sdxl m.sdxl_required_vram_gb env hm,
      load_core_trace_snapOk m .sdxl m.sdxl_required_vram_gb env⟩
  case unload t c =>
    exact ⟨unload_model_inv m t c hm, unload_model_trace_snapOk m t c⟩
  case evictAll cIm cSd =>
    exact ⟨unload_all_inv m cIm cSd hm, unload_all_trace_snapOk m cIm cSd⟩
  case genMesh env p =>
    obtain ⟨g1, g2, -, -⟩ := generate_mesh_spec m env p hm
    exact ⟨g1, g2⟩
  case genImage env p =>
    obtain ⟨g1, g2, -, -⟩ := generate_image_spec m env p hm
    exact ⟨g1, g2⟩
  case pipeline env d =>
    obtain ⟨g1, g2, -, -⟩ := pipeline_spec m env d hm
    exact ⟨g1, g2⟩

lemma run_inv (ops : List Op) (m : Manager) (hm : inv m = true) :
    inv (run m ops).1 = true ∧ (run m ops).2.all snapOk = true := by
  induction ops generalizing m with
  | nil => exact ⟨hm, rfl⟩
  | cons op ops ih =>
    obtain ⟨s1, s2⟩ := step_inv m op hm
    obtain ⟨r1, r2⟩ := ih (step m op).1 s1
    simp only [run, List.all_append, Bool.and_eq_true]
    exact ⟨r1, s2, r2⟩

lemma roundHalfEven_ge_one (q : ℚ) (h : 1 ≤ q) : 1 ≤ roundHalfEven q := by
  have hf : (1 : ℤ) ≤ ⌊q⌋ := by
    rw [Int.le_floor]
    exact_mod_cast h
  unfold roundHalfEven
  split_ifs <;> omega

lemma pyRound2_pos (q : ℚ) (h : 1 / 100 ≤ q) : 0 < pyRound2 q := by
  have h1 : (1 : ℚ) ≤ q * 100 := by linarith
  have h2 : (1 : ℤ) ≤ roundHalfEven (q * 100) := roundHalfEven_ge_one _ h1
  have h3 : (1 : ℚ) ≤ (roundHalfEven (q * 100) : ℚ) := by exact_mod_cast h2
  unfold pyRound2
  linarith

lemma atRest_not_loading (s : Slot) (h : atRest s = true) :
    ¬ s.state = .loading := by
  simp only [atRest_eq, Bool.and_eq_true, Bool.not_eq_true',
    decide_eq_false_iff_not] at h
  exact h.1

lemma resident_false_not_ready (s : Slot) (h : resident s = false) :
    ¬ s.state = .ready := by
  intro hs
  simp [resident_eq, hs] at h

lemma pipeline_happy_core (m : Manager) (env : PipeEnv) (d : String)
    (hm : inv m = true) (hlk : m.generation_lock = false)
    (hmk : env.mkdirOk = true)
    (h1a : env.stage1.load.evictClearIm = true)
    (h1b : env.stage1.load.evictClearSd = true)
    (h1c : env.stage1.load.postEvictClearOk = true)
    (h1d : env.stage1.load.acquireOk = true)
    (h1e : env.stage1.computeOk = true) (h1f : env.stage1.postOk = true)
    (h1g : check_vram_budget m env.stage1.load.vram m.sdxl_required_vram_gb
      = true)
    (h2a : env.stage2.load.evictClearIm = true)
    (h2b : env.stage2.load.evictClearSd = true)
    (h2c : env.stage2.load.postEvictClearOk = true)
    (h2d : env.stage2.load.acquireOk = true)
    (h2e : env.stage2.imageOk = true) (h2f : env.stage2.computeOk = true)
    (h2g : env.stage2.exportOk = true) (h2h : env.stage2.shapeRecognized = true)
    (h2i : env.stage2.postOk = true)
    (h2j : check_vram_budget m env.stage2.load.vram
      m.instantmesh_required_vram_gb = true) :
    (generate_full_pipeline m env d).1.success = true ∧
      (generate_full_pipeline m env d).1.image_path =
        some (d ++ "/generated_image.png") ∧
      (generate_full_pipeline m env d).1.mesh_path =
        some (d ++ "/generated_mesh.glb") ∧
      (generate_full_pipeline m env d).1.stage_image =
        some { success := true, output_path := some (d ++ "/generated_image.png"),
               generation_time := some (pyRound2 env.stage1.duration) } ∧
      (generate_full_pipeline m env d).1.stage_mesh =
        some { success := true, output_path := some (d ++ "/generated_mesh.glb"),
               generation_time := some (pyRound2 env.stage2.duration) } ∧
      (generate_full_pipeline m env d).2.1.instantmesh.state = .ready ∧
      (generate_full_pipeline m env d).2.1.sdxl.state = .unloaded := by
  have hlk' : ¬ m.generation_lock = true := by simp [hlk]
  obtain ⟨g1, g2, g3, g4, g5⟩ := generate_image_happy
    { m with generation_lock := false } env.stage1
    (d ++ "/generated_image.png") (by simpa using hm) (by simp)
    h1a h1b h1c h1d h1e h1f h1g
  rcases hs1 : generate_image { m with generation_lock := false } env.stage1
    (d ++ "/generated_image.png") with ⟨r1, m1, e1⟩
  rw [hs1] at g1 g2 g3 g4 g5
  dsimp only at g1 g2 g3 g4 g5
  simp only [config_lock] at g5
  have hbuf : m1.vram_buffer_gb = m.vram_buffer_gb := by
    have := g5
    simp only [Manager.config, Prod.mk.injEq] at this
    exact this.2.1
  have hreq : m1.instantmesh_required_vram_gb = m.instantmesh_required_vram_gb := by
    have := g5
    simp only [Manager.config, Prod.mk.injEq] at this
    exact this.2.2.1
  have him : resident m1.instantmesh = false := by
    refine resident_other_false' _ _ (inv_parts m1 g3).1 ?_
    simp [g2]
  have hnr : ¬ m1.instantmesh.state = .ready := resident_false_not_ready _ him
  have hc2 : check_vram_budget m1 env.stage2.load.vram
      m1.instantmesh_required_vram_gb = true := by
    rw [check_vram_budget_congr m m1 env.stage2.load.vram
      m1.instantmesh_required_vram_gb hbuf, hreq]
    exact h2j
  obtain ⟨k1, k2, k3, k4⟩ := generate_mesh_happy
    { m1 with generation_lock := false } env.stage2
    (d ++ "/generated_mesh.glb") (by simpa using g3) (by simp)
    (by simpa using hnr) h2a h2b h2c h2d h2e h2f h2g h2h h2i hc2
  rcases hs2 : generate_mesh { m1 with generation_lock := false } env.stage2
    (d ++ "/generated_mesh.glb") with ⟨r2, m2, e2⟩
  rw [hs2] at k1 k2 k3 k4
  dsimp only at k1 k2 k3 k4
  have hr1 : ¬ r1.success = false := by simp [g1]
  have hr2 : ¬ r2.success = false := by simp [k1]
  simp only [generate_full_pipeline, if_neg hlk',
    if_neg (show ¬ env.mkdirOk = false by simp [hmk]), hs1, hs2, hr1, hr2,
    if_neg, ite_false, ite_true]
  simp [g1, k1, k2, k3]

end Lemmas

section Claims

attribute [local semireducible] Rat.add Rat.mul Rat.inv Rat.sub

/-- Claim C1: single residency (I1).  From the initial all-unloaded table,
every sequence of load, unload, evict and generate operations keeps at most
one slot in a state of {ready, generating} at every instant: every
slot-table snapshot recorded during execution, and every state between
operations, satisfies single residency.  The eviction pass of a load runs
before the loaded slot becomes ready, which is exactly why every snapshot
stays single-resident. -/
theorem single_residency_invariant (buffer imReq sdReq : ℚ) (threshold : Nat)
    (ops : List Op) :
    (run (initManager buffer imReq sdReq threshold) ops).2.all snapOk = true ∧
      singleResident
        (run (initManager buffer imReq sdReq threshold) ops).1.instantmesh
        (run (initManager buffer imReq sdReq threshold) ops).1.sdxl = true := by
  have h0 : inv (initManager buffer imReq sdReq threshold) = true := rfl
  obtain ⟨h1, h2⟩ := run_inv ops _ h0
  exact ⟨h2, (inv_parts _ h1).1⟩

/-- Claim C2, counterexample: the generation-lock trace of a
`generate_full_pipeline` run contains a blocking `acquire()` event, so not
every acquisition of the generation lock is a non-blocking try-acquire —
the pipeline's internal reacquisitions between stages (source lines 498 and
513) block. -/
theorem pipeline_blocking_acquire_cex :
    (generate_full_pipeline defaultManager failImagePipeEnv "out").2.2.all
      nonBlockingEvent = false ∧
    (generate_full_pipeline defaultManager failImagePipeEnv "out").2.2.contains
      Event.blockingAcquire = true := by
  exact ⟨by decide, by decide⟩

/-- Claim C2, amended: every acquisition of the generation lock performed
by `generate_mesh` and `generate_image` is a non-blocking try-acquire, and
`generate_full_pipeline`'s own entry acquisition is non-blocking — when the
lock is already held it returns the busy outcome immediately without
touching any state; only the pipeline's internal reacquisitions between
stages are blocking `acquire()` calls. -/
theorem gate_acquire_nonblocking_amended :
    (∀ (m : Manager) (env : MeshEnv) (p : String),
      (generate_mesh m env p).2.2.all nonBlockingEvent = true) ∧
    (∀ (m : Manager) (env : ImageEnv) (p : String),
      (generate_image m env p).2.2.all nonBlockingEvent = true) ∧
    (∀ (m : Manager) (env : PipeEnv) (d : String),
      m.generation_lock = true →
        generate_full_pipeline m env d =
          ({ success := false,
             error := some "Another generation is in progress",
             stage := some "blocked" }, m, [Event.tryAcquire false])) := by
  refine ⟨fun m env p => generate_mesh_nonblocking m env p,
    fun m env p => (generate_image_flags m env p).1,
    fun m env d h => ?_⟩
  simp [generate_full_pipeline, h]

/-- Witness for the amended C2 at concrete inputs. -/
theorem gate_acquire_nonblocking_amended_witness :
    (generate_mesh defaultManager happyMeshEnv "o").2.2.all nonBlockingEvent
      = true ∧
    generate_full_pipeline { defaultManager with generation_lock := true }
      happyPipeEnv "out" =
      ({ success := false, error := some "Another generation is in progress",
         stage := some "blocked" },
       { defaultManager with generation_lock := true },
       [Event.tryAcquire false]) :=
  ⟨gate_acquire_nonblocking_amended.1 defaultManager happyMeshEnv "o",
   gate_acquire_nonblocking_amended.2.2
     { defaultManager with generation_lock := true } happyPipeEnv "out"
     (by decide)⟩

/-- Claim C3: the code contradicts the specified Busy→Ready-on-return rule.
When the backend compute call of `generate_mesh` returns an object with
none of the recognised mesh shapes, the source returns the failure dict
`Model output format not recognized` directly from inside the `try` (line
365) without restoring the slot state, so the operation returns with the
InstantMesh slot still in `generating`. -/
theorem mesh_unrecognized_format_leaves_generating :
    (generate_mesh defaultManager badShapeMeshEnv "out.glb").1.success
      = false ∧
    (generate_mesh defaultManager badShapeMeshEnv "out.glb").1.error
      = some "Model output format not recognized" ∧
    (generate_mesh defaultManager badShapeMeshEnv "out.glb").2.1.instantmesh.state
      = ModelState.generating := by
  exact ⟨by decide, by decide, by decide⟩

/-- Claim C4, counterexample: the handle/state coupling does not hold at
every reachable instant.  The trace of a plain successful
`load_instantmesh` from the initial state contains a snapshot in which the
InstantMesh slot is in `loading` with a null handle (the source sets
`state = LOADING` at line 205 before any pipeline object exists), so some
reachable snapshot violates I2. -/
theorem loading_null_handle_cex :
    (run defaultManager [Op.loadInstantmesh happyLoadEnv]).2.all snapCoupled
      = false ∧
    (run defaultManager [Op.loadInstantmesh happyLoadEnv]).2.contains
      (Event.snap ⟨.loading, none, 0⟩ ⟨.unloaded, none, 0⟩) = true ∧
    coupled ⟨ModelState.loading, none, 0⟩ = false := by
  exact ⟨by decide, by decide, by decide⟩

/-- Claim C4, amended: the handle/state coupling holds in every state
observable between operations.  After any sequence of operations from the
initial table, each slot's handle is non-null exactly when its state is in
{loading, ready, generating, unloading} (`coupled`), and the transitional
states `loading`/`unloading` never persist between operations (`atRest`) —
so between operations the handle is non-null exactly on ready/generating
slots; within an operation the handle is null during part of Loading and
Unloading. -/
theorem handle_state_coupling_amended (buffer imReq sdReq : ℚ)
    (threshold : Nat) (ops : List Op) :
    coupled (run (initManager buffer imReq sdReq threshold) ops).1.instantmesh
      = true ∧
    coupled (run (initManager buffer imReq sdReq threshold) ops).1.sdxl
      = true ∧
    atRest (run (initManager buffer imReq sdReq threshold) ops).1.instantmesh
      = true ∧
    atRest (run (initManager buffer imReq sdReq threshold) ops).1.sdxl
      = true := by
  have h0 : inv (initManager buffer imReq sdReq threshold) = true := rfl
  obtain ⟨h1, -⟩ := run_inv ops _ h0
  obtain ⟨-, a, b, c, d⟩ := inv_parts _ h1
  exact ⟨a, b, c, d⟩

/-- Claim C5, counterexample: on a fully successful pipeline run the final
slot states are not both Ready — stage B's load evicts the SDXL slot (as
invariant I1 requires), so the SDXL slot ends `unloaded`, not `ready`. -/
theorem pipeline_both_ready_cex :
    (generate_full_pipeline defaultManager happyPipeEnv "out").1.success
      = true ∧
    (generate_full_pipeline defaultManager happyPipeEnv "out").2.1.sdxl.state
      = ModelState.unloaded ∧
    ¬ (generate_full_pipeline defaultManager happyPipeEnv "out").2.1.sdxl.state
      = ModelState.ready := by
  exact ⟨by decide, by decide, by decide⟩

/-- Claim C5, amended: on every run in which both stages' collaborators
succeed (and each stage takes at least 0.01 s, the granularity of the
reported rounded timing), `generate_full_pipeline` returns success carrying
both artifact paths and both per-stage results with elapsed times greater
than zero, and leaves the mesh slot `ready` and the image slot `unloaded`
(evicted when the mesh stage loaded its model) — not both Ready. -/
theorem pipeline_happy_path_amended (m : Manager) (env : PipeEnv) (d : String)
    (hm : inv m = true) (hlk : m.generation_lock = false)
    (hmk : env.mkdirOk = true)
    (h1a : env.stage1.load.evictClearIm = true)
    (h1b : env.stage1.load.evictClearSd = true)
    (h1c : env.stage1.load.postEvictClearOk = true)
    (h1d : env.stage1.load.acquireOk = true)
    (h1e : env.stage1.computeOk = true) (h1f : env.stage1.postOk = true)
    (h1g : check_vram_budget m env.stage1.load.vram m.sdxl_required_vram_gb
      = true)
    (h1t : 1 / 100 ≤ env.stage1.duration)
    (h2a : env.stage2.load.evictClearIm = true)
    (h2b : env.stage2.load.evictClearSd = true)
    (h2c : env.stage2.load.postEvictClearOk = true)
    (h2d : env.stage2.load.acquireOk = true)
    (h2e : env.stage2.imageOk = true) (h2f : env.stage2.computeOk = true)
    (h2g : env.stage2.exportOk = true)
    (h2h : env.stage2.shapeRecognized = true)
    (h2i : env.stage2.postOk = true)
    (h2j : check_vram_budget m env.stage2.load.vram
      m.instantmesh_required_vram_gb = true)
    (h2t : 1 / 100 ≤ env.stage2.duration) :
    (generate_full_pipeline m env d).1.success = true ∧
      (generate_full_pipeline m env d).1.image_path =
        some (d ++ "/generated_image.png") ∧
      (generate_full_pipeline m env d).1.mesh_path =
        some (d ++ "/generated_mesh.glb") ∧
      (generate_full_pipeline m env d).1.stage_image =
        some { success := true,
               output_path := some (d ++ "/generated_image.png"),
               generation_time := some (pyRound2 env.stage1.duration) } ∧
      (generate_full_pipeline m env d).1.stage_mesh =
        some { success := true,
               output_path := some (d ++ "/generated_mesh.glb"),
               generation_time := some (pyRound2 env.stage2.duration) } ∧
      0 < pyRound2 env.stage1.duration ∧
      0 < pyRound2 env.stage2.duration ∧
      (generate_full_pipeline m env d).2.1.instantmesh.state = .ready ∧
      (generate_full_pipeline m env d).2.1.sdxl.state = .unloaded := by
  obtain ⟨c1, c2, c3, c4, c5, c6, c7⟩ := pipeline_happy_core m env d hm hlk
    hmk h1a h1b h1c h1d h1e h1f h1g h2a h2b h2c h2d h2e h2f h2g h2h h2i h2j
  exact ⟨c1, c2, c3, c4, c5, pyRound2_pos _ h1t, pyRound2_pos _ h2t, c6, c7⟩

/-- Witness for the amended C5 at concrete inputs. -/
theorem pipeline_happy_path_amended_witness :
    (generate_full_pipeline defaultManager happyPipeEnv "out").1.success
      = true ∧
    (generate_full_pipeline defaultManager happyPipeEnv "out").1.image_path =
      some ("out" ++ "/generated_image.png") ∧
    (generate_full_pipeline defaultManager happyPipeEnv "out").1.mesh_path =
      some ("out" ++ "/generated_mesh.glb") ∧
    (generate_full_pipeline defaultManager happyPipeEnv "out").1.stage_image =
      some { success := true,
             output_path := some ("out" ++ "/generated_image.png"),
             generation_time :=
               some (pyRound2 happyPipeEnv.stage1.duration) } ∧
    (generate_full_pipeline defaultManager happyPipeEnv "out").1.stage_mesh =
      some { success := true,
             output_path := some ("out" ++ "/generated_mesh.glb"),
             generation_time :=
               some (pyRound2 happyPipeEnv.stage2.duration) } ∧
    0 < pyRound2 happyPipeEnv.stage1.duration ∧
    0 < pyRound2 happyPipeEnv.stage2.duration ∧
    (generate_full_pipeline defaultManager happyPipeEnv "out").2.1.instantmesh.state
      = .ready ∧
    (generate_full_pipeline defaultManager happyPipeEnv "out").2.1.sdxl.state
      = .unloaded :=
  pipeline_happy_path_amended defaultManager happyPipeEnv "out"
    (by decide) (by decide) (by decide) (by decide) (by decide) (by decide)
    (by decide) (by decide) (by decide) (by decide)
    (by norm_num [happyPipeEnv, happyImageEnv]) (by decide)
    (by decide) (by decide) (by decide) (by decide) (by decide) (by decide)
    (by decide) (by decide) (by decide)
    (by norm_num [happyPipeEnv, happyMeshEnv])

/-- Claim C6: when the generation lock is already held, each of
`generate_mesh`, `generate_image` and `generate_full_pipeline` returns the
busy failure (`Another generation is in progress`) immediately, leaving the
manager — every slot state, handle and load count, and the process-wide
counters — exactly unchanged, with the only observable event the failed
try-acquire. -/
theorem busy_fail_fast_preserves_state (m : Manager) (env1 : MeshEnv)
    (env2 : ImageEnv) (env3 : PipeEnv) (p1 p2 d : String)
    (h : m.generation_lock = true) :
    generate_mesh m env1 p1 =
      ({ success := false,
         error := some "Another generation is in progress" }, m,
       [Event.tryAcquire false]) ∧
    generate_image m env2 p2 =
      ({ success := false,
         error := some "Another generation is in progress" }, m,
       [Event.tryAcquire false]) ∧
    generate_full_pipeline m env3 d =
      ({ success := false,
         error := some "Another generation is in progress",
         stage := some "blocked" }, m, [Event.tryAcquire false]) := by
  refine ⟨?_, ?_, ?_⟩ <;>
    simp [generate_mesh, generate_image, generate_full_pipeline, h]

/-- Witness for C6 at concrete inputs. -/
theorem busy_fail_fast_preserves_state_witness :
    generate_mesh { defaultManager with generation_lock := true }
      happyMeshEnv "a" =
      ({ success := false,
         error := some "Another generation is in progress" },
       { defaultManager with generation_lock := true },
       [Event.tryAcquire false]) ∧
    generate_full_pipeline { defaultManager with generation_lock := true }
      happyPipeEnv "out" =
      ({ success := false,
         error := some "Another generation is in progress",
         stage := some "blocked" },
       { defaultManager with generation_lock := true },
       [Event.tryAcquire false]) := by
  obtain ⟨w1, -, w3⟩ := busy_fail_fast_preserves_state
    { defaultManager with generation_lock := true } happyMeshEnv happyImageEnv
    happyPipeEnv "a" "b" "out" (by decide)
  exact ⟨w1, w3⟩

/-- Claim C7, counterexample: a denied admission does not always leave the
target slot `unloaded`.  Starting from a reachable state in which the
InstantMesh slot is in `error` (a failed acquisition), a second load whose
eviction pass fails (`_clear_vram` raises inside `_unload_model`) and whose
admission check is denied returns failure with the slot left in `error`,
not `unloaded`. -/
theorem admission_denied_error_slot_cex :
    (load_instantmesh (load_instantmesh defaultManager failAcquireEnv).2.1
      deniedEvictFailEnv).1 = Except.ok false ∧
    (load_instantmesh (load_instantmesh defaultManager failAcquireEnv).2.1
      deniedEvictFailEnv).2.1.instantmesh.state = ModelState.error ∧
    ¬ (load_instantmesh (load_instantmesh defaultManager failAcquireEnv).2.1
      deniedEvictFailEnv).2.1.instantmesh.state = ModelState.unloaded := by
  exact ⟨rfl, by decide, by decide⟩

/-- Claim C7, amended: `_check_vram_budget` returns true whenever the probe
reports unavailable, and otherwise returns false exactly when
`free_gb < required_gb + vram_buffer_gb`; whenever admission is denied
during a load (the slot was not already ready and the post-eviction clear
did not raise), the load returns `False`, the target slot never transitions
to `loading` at any instant, and it ends `unloaded` or — when its own
eviction pass failed — `error`; in particular a slot that was `unloaded`
when the load began is left exactly unchanged. -/
theorem admission_control_amended :
    (∀ (m : Manager) (vram : VramInfo) (req : ℚ),
      check_vram_budget m vram req = false ↔
        vram.available = true ∧ vram.free_gb < req + m.vram_buffer_gb) ∧
    (∀ (m : Manager) (env : LoadEnv), inv m = true →
      ¬ m.instantmesh.state = .ready →
      env.postEvictClearOk = true →
      check_vram_budget m env.vram m.instantmesh_required_vram_gb = false →
      (load_instantmesh m env).1 = .ok false ∧
        ((load_instantmesh m env).2.1.instantmesh.state = .unloaded ∨
          (load_instantmesh m env).2.1.instantmesh.state = .error) ∧
        (load_instantmesh m env).2.2.all noLoadingSnap = true ∧
        (m.instantmesh.state = .unloaded →
          (load_instantmesh m env).2.1.instantmesh = m.instantmesh)) ∧
    (∀ (m : Manager) (env : LoadEnv), inv m = true →
      ¬ m.sdxl.state = .ready →
      env.postEvictClearOk = true →
      check_vram_budget m env.vram m.sdxl_required_vram_gb = false →
      (load_sdxl m env).1 = .ok false ∧
        ((load_sdxl m env).2.1.sdxl.state = .unloaded ∨
          (load_sdxl m env).2.1.sdxl.state = .error) ∧
        (load_sdxl m env).2.2.all noLoadingSnap = true ∧
        (m.sdxl.state = .unloaded →
          (load_sdxl m env).2.1.sdxl = m.sdxl)) := by
  refine ⟨?_, ?_, ?_⟩
  · intro m vram req
    cases hv : vram.available <;>
      by_cases hlt : vram.free_gb < req + m.vram_buffer_gb <;>
      simp [check_vram_budget, hv, hlt]
  · intro m env hm hnr hp hc
    obtain ⟨-, -, -, hai, has⟩ := inv_parts m hm
    exact load_core_denied m .instantmesh m.instantmesh_required_vram_gb env
      (atRest_not_loading _ hai) (atRest_not_loading _ has) hnr hp hc
  · intro m env hm hnr hp hc
    obtain ⟨-, -, -, hai, has⟩ := inv_parts m hm
    exact load_core_denied m .sdxl m.sdxl_required_vram_gb env
      (atRest_not_loading _ hai) (atRest_not_loading _ has) hnr hp hc

/-- Witness for the amended C7 at concrete inputs. -/
theorem admission_control_amended_witness :
    (load_instantmesh defaultManager deniedLoadEnv).1 = .ok false ∧
    ((load_instantmesh defaultManager deniedLoadEnv).2.1.instantmesh.state
        = .unloaded ∨
      (load_instantmesh defaultManager deniedLoadEnv).2.1.instantmesh.state
        = .error) ∧
    (load_instantmesh defaultManager deniedLoadEnv).2.2.all noLoadingSnap
      = true ∧
    (defaultManager.instantmesh.state = .unloaded →
      (load_instantmesh defaultManager deniedLoadEnv).2.1.instantmesh =
        defaultManager.instantmesh) :=
  admission_control_amended.2.1 defaultManager deniedLoadEnv
    (by decide) (by decide) (by decide) (by decide)

/-- Claim C8: whenever stage A (image generation) of
`generate_full_pipeline` returns failure, the pipeline result is a failure
identifying the image stage together with the upstream error, stage B is
never invoked — the InstantMesh backend compute call never appears in the
trace — and no mesh artifact is produced (`stage_mesh` and `mesh_path` are
absent). -/
theorem pipeline_stage_a_failure_aborts (m : Manager) (env : PipeEnv)
    (d : String) (s1 : GenResult)
    (h1 : (generate_full_pipeline m env d).1.stage_image = some s1)
    (h2 : s1.success = false) :
    (generate_full_pipeline m env d).1.success = false ∧
      (generate_full_pipeline m env d).1.stage = some "image" ∧
      (generate_full_pipeline m env d).1.error =
        some ("Image generation failed: " ++ optStr s1.error) ∧
      (generate_full_pipeline m env d).1.stage_mesh = none ∧
      (generate_full_pipeline m env d).1.mesh_path = none ∧
      (generate_full_pipeline m env d).2.2.all notMeshCompute = true := by
  by_cases hl : m.generation_lock = true
  · simp [generate_full_pipeline, hl] at h1
  · by_cases hmk : env.mkdirOk = false
    · simp [generate_full_pipeline, hl, hmk] at h1
    · rcases hs1 : generate_image { m with generation_lock := false }
        env.stage1 (d ++ "/generated_image.png") with ⟨r1, m1, e1⟩
      obtain ⟨-, fl2⟩ := generate_image_flags { m with generation_lock := false }
        env.stage1 (d ++ "/generated_image.png")
      rw [hs1] at fl2
      dsimp only at fl2
      by_cases hr1 : r1.success = false
      · simp only [generate_full_pipeline, if_neg hl, if_neg hmk, hs1,
          if_pos hr1] at h1 ⊢
        obtain rfl : r1 = s1 := by simpa using h1
        refine ⟨?_, ?_, ?_, ?_, ?_, ?_⟩ <;>
          first
            | trivial
            | simp [List.all_cons, List.all_append, notMeshCompute, fl2]
      · rcases hs2 : generate_mesh { m1 with generation_lock := false }
          env.stage2 (d ++ "/generated_mesh.glb") with ⟨r2, m2, e2⟩
        by_cases hr2 : r2.success = false
        · simp only [generate_full_pipeline, if_neg hl, if_neg hmk, hs1,
            if_neg hr1, hs2, if_pos hr2] at h1
          obtain rfl : r1 = s1 := by simpa using h1
          exact absurd h2 hr1
        · simp only [generate_full_pipeline, if_neg hl, if_neg hmk, hs1,
            if_neg hr1, hs2, if_neg hr2] at h1
          obtain rfl : r1 = s1 := by simpa using h1
          exact absurd h2 hr1

/-- Witness for C8 at concrete inputs. -/
theorem pipeline_stage_a_failure_aborts_witness :
    (generate_full_pipeline defaultManager failImagePipeEnv "out").1.success
      = false ∧
    (generate_full_pipeline defaultManager failImagePipeEnv "out").1.stage
      = some "image" ∧
    (generate_full_pipeline defaultManager failImagePipeEnv "out").1.error =
      some ("Image generation failed: " ++
        optStr (GenResult.error { success := false, error := some excText })) ∧
    (generate_full_pipeline defaultManager failImagePipeEnv "out").1.stage_mesh
      = none ∧
    (generate_full_pipeline defaultManager failImagePipeEnv "out").1.mesh_path
      = none ∧
    (generate_full_pipeline defaultManager failImagePipeEnv "out").2.2.all
      notMeshCompute = true :=
  pipeline_stage_a_failure_aborts defaultManager failImagePipeEnv "out"
    { success := false, error := some excText } (by decide) (by decide)

/-- Claim C9: `get_status` reports `needs_restart` true exactly when
`generation_count ≥ restart_threshold`; every successful `generate_image`
or `generate_mesh` increments `generation_count` by exactly one, and in
particular a successful generation that brings the count up to the
threshold makes `needs_restart` true. -/
theorem restart_signal (m : Manager) (vram : VramInfo) (envI : ImageEnv)
    (envM : MeshEnv) (p1 p2 : String) :
    ((get_status m vram).needs_restart = true ↔
      m.restart_threshold ≤ m.generation_count) ∧
    ((generate_image m envI p1).1.success = true →
      (generate_image m envI p1).2.1.generation_count =
        m.generation_count + 1) ∧
    ((generate_mesh m envM p2).1.success = true →
      (generate_mesh m envM p2).2.1.generation_count =
        m.generation_count + 1) ∧
    ((generate_image m envI p1).1.success = true →
      m.generation_count + 1 = m.restart_threshold →
      (get_status (generate_image m envI p1).2.1 vram).needs_restart
        = true) := by
  refine ⟨by simp [get_status], fun h => generate_image_count m envI p1 h,
    fun h => generate_mesh_count m envM p2 h, fun h hth => ?_⟩
  have hc := generate_image_config m envI p1
  simp only [Manager.config, Prod.mk.injEq] at hc
  simp [get_status, generate_image_count m envI p1 h, hth, hc.1]

/-- Witness for C9 at concrete inputs: with a restart threshold of one, a
single successful generation flips `needs_restart`. -/
theorem restart_signal_witness :
    (generate_image (initManager 2 6 8 1) happyImageEnv "a").1.success
      = true ∧
    (get_status (generate_image (initManager 2 6 8 1) happyImageEnv "a").2.1
      goodVram).needs_restart = true :=
  ⟨by decide,
   (restart_signal (initManager 2 6 8 1) goodVram happyImageEnv happyMeshEnv
     "a" "b").2.2.2 (by decide) (by decide)⟩

/-- Claim C10: loading an already-ready model is a pure no-op — the load
returns `True` with no eviction, no slot mutation and no load-count
increment (the manager and the trace are exactly unchanged) — and
consequently loading twice in a row equals loading once. -/
theorem load_ready_noop (m : Manager) (env env' : LoadEnv) :
    (m.instantmesh.state = .ready →
      load_instantmesh m env = (.ok true, m, [])) ∧
    (m.sdxl.state = .ready → load_sdxl m env = (.ok true, m, [])) ∧
    ((load_instantmesh m env).1 = .ok true →
      load_instantmesh (load_instantmesh m env).2.1 env' =
        (.ok true, (load_instantmesh m env).2.1, [])) ∧
    ((load_sdxl m env).1 = .ok true →
      load_sdxl (load_sdxl m env).2.1 env' =
        (.ok true, (load_sdxl m env).2.1, [])) := by
  refine ⟨fun h => load_core_ready_noop m .instantmesh _ env (by simpa using h),
    fun h => load_core_ready_noop m .sdxl _ env (by simpa using h),
    fun h => ?_, fun h => ?_⟩
  · have hr := load_core_ok_ready m .instantmesh m.instantmesh_required_vram_gb
      env h
    exact load_core_ready_noop _ .instantmesh _ env' (by simpa using hr)
  · have hr := load_core_ok_ready m .sdxl m.sdxl_required_vram_gb env h
    exact load_core_ready_noop _ .sdxl _ env' (by simpa using hr)

/-- Witness for C10 at concrete inputs: after a successful load the slot is
ready and a second load is the identity. -/
theorem load_ready_noop_witness :
    load_instantmesh (load_instantmesh defaultManager happyLoadEnv).2.1
      happyLoadEnv =
      (.ok true, (load_instantmesh defaultManager happyLoadEnv).2.1, []) :=
  (load_ready_noop defaultManager happyLoadEnv happyLoadEnv).2.2.1 (by rfl)

end Claims

end BrightForge
